import Mathlib

/-! Verification development for the popeye population-fit engine
(`popeye/base_md.py`).  The data model, the fit pipeline and the cache
builder are embedded shallowly: machine floats become rationals, extended
with an explicit numpy-style value type (`NpVal`) wherever non-finite
values are semantically relevant, and the lazily memoized attributes of
`PopulationFit` become an explicit state machine over per-field caches
and execution counters. -/

namespace Popeye

/-- A numpy floating-point value, embedded as a rational extended with the
non-finite values `inf`, `-inf` and `nan`. -/
inductive NpVal where
  | fin (q : ℚ)
  | inf
  | ninf
  | nan
deriving DecidableEq

namespace NpVal

/-- numpy addition on extended values. -/
def add : NpVal → NpVal → NpVal
  | fin a, fin b => fin (a + b)
  | fin _, inf => inf
  | fin _, ninf => ninf
  | fin _, nan => nan
  | inf, fin _ => inf
  | inf, inf => inf
  | inf, ninf => nan
  | inf, nan => nan
  | ninf, fin _ => ninf
  | ninf, inf => nan
  | ninf, ninf => ninf
  | ninf, nan => nan
  | nan, _ => nan

/-- numpy subtraction on extended values. -/
def sub : NpVal → NpVal → NpVal
  | fin a, fin b => fin (a - b)
  | fin _, inf => ninf
  | fin _, ninf => inf
  | fin _, nan => nan
  | inf, fin _ => inf
  | inf, inf => nan
  | inf, ninf => inf
  | inf, nan => nan
  | ninf, fin _ => ninf
  | ninf, inf => ninf
  | ninf, ninf => nan
  | ninf, nan => nan
  | nan, _ => nan

/-- numpy division on extended values: a nonzero finite value divided by
zero yields a signed infinity, and `0 / 0` yields `nan`. -/
def div : NpVal → NpVal → NpVal
  | fin a, fin b =>
      if b = 0 then (if a = 0 then nan else if 0 < a then inf else ninf)
      else fin (a / b)
  | fin _, inf => fin 0
  | fin _, ninf => fin 0
  | fin _, nan => nan
  | inf, fin b => if 0 ≤ b then inf else ninf
  | ninf, fin b => if 0 ≤ b then ninf else inf
  | inf, _ => nan
  | ninf, _ => nan
  | nan, _ => nan

/-- Embeds `np.isnan` on a single value. -/
def isnan : NpVal → Bool
  | nan => true
  | _ => false

/-- Embeds `np.isinf` on a single value. -/
def isinf : NpVal → Bool
  | inf => true
  | ninf => true
  | _ => false

/-- Embeds `np.isfinite` on a single value. -/
def isfinite : NpVal → Bool
  | fin _ => true
  | _ => false

end NpVal

/-- Embeds `np.sum` over a vector of numpy values. -/
def npSum (l : List NpVal) : NpVal := l.foldl NpVal.add (NpVal.fin 0)

/-- Embeds `np.mean` of a finite rational vector (the empty vector, whose numpy
mean is `nan`, is only ever consumed by `rsquaredOf`, where the zero total
sum of squares triggers the same non-finite cleanup branch). -/
def npMean (l : List ℚ) : ℚ := l.sum / l.length

/-- Total sum of squares `Σ (data - mean data)²`, the denominator of R²
(`base_md.py`, `PopulationFit.rsquared`). -/
def ssTot (data : List ℚ) : ℚ := (data.map (fun d => (d - npMean data) ^ 2)).sum

/-- Residual sum of squares `Σ (data - prediction)²`
(`base_md.py`, `PopulationFit.rss`). -/
def rssOf (data pred : List ℚ) : ℚ := ((data.zip pred).map (fun p => (p.1 - p.2) ^ 2)).sum

/-- The intermediate value `1 - rss / Σ (data - mean data)²` computed with
numpy float semantics (`base_md.py` line 451); for zero-variance data the
division by zero produces a non-finite value. -/
def rsquaredRaw (rss : ℚ) (data : List ℚ) : NpVal :=
  NpVal.sub (NpVal.fin 1) (NpVal.div (NpVal.fin rss) (NpVal.fin (ssTot data)))

/-- Embeds `PopulationFit.rsquared` (`base_md.py` lines 448-460): the raw R² with
any non-finite value replaced by `0`, and the finite value clamped by
`np.maximum(·, 0)` then `np.minimum(·, 1)`. -/
def rsquaredOf (rss : ℚ) (data : List ℚ) : ℚ :=
  match rsquaredRaw rss data with
  | NpVal.fin r => min 1 (max r 0)
  | _ => 0

/-- One dimension of a search grid: either an explicit range (a Python
`slice`, interpreted with `np.arange`) or a `(low, high)` pair to be
sampled at `Ns` evenly spaced points with `np.linspace`. -/
inductive GridSpec where
  | slice (start stop step : ℚ)
  | pair (lo hi : ℚ)
deriving DecidableEq

/-- Embeds `np.arange(start, stop, step)`. -/
def npArange (start stop step : ℚ) : List ℚ :=
  if step = 0 then []
  else (List.range (Int.toNat ⌈(stop - start) / step⌉)).map (fun i => start + i * step)

/-- Embeds `np.linspace(lo, hi, ns)`: `ns` evenly spaced samples, endpoints
included. -/
def npLinspace (lo hi : ℚ) (ns : ℕ) : List ℚ :=
  if ns = 0 then []
  else if ns = 1 then [lo]
  else (List.range ns).map (fun i => lo + i * (hi - lo) / ((ns : ℚ) - 1))

/-- The per-dimension parameter samples of a grid (`base_md.py` lines
123-126): explicit ranges via `np.arange`, `(low, high)` pairs via
`np.linspace` at `Ns` samples (mixing the two kinds in one grid is a
Python type error, so each dimension is interpreted by its own kind). -/
def sampleParams (grids : List GridSpec) (Ns : ℕ) : List (List ℚ) :=
  grids.map (fun g =>
    match g with
    | GridSpec.slice a b s => npArange a b s
    | GridSpec.pair lo hi => npLinspace lo hi Ns)

/-- Embeds `itertools.product` over the per-dimension samples: all parameter
combinations, the rightmost dimension varying fastest. -/
def listProd : List (List ℚ) → List (List ℚ)
  | [] => [[]]
  | xs :: rest => xs.flatMap (fun x => (listProd rest).map (fun c => x :: c))

/-- Embeds `scipy.stats.linregress(X, y)[0:2]`: ordinary least-squares slope and
intercept of `y` against `X`. -/
def linregress (X y : List ℚ) : ℚ × ℚ :=
  let mx := npMean X
  let my := npMean y
  let sxx := (X.map (fun x => (x - mx) ^ 2)).sum
  let sxy := ((X.zip y).map (fun p => (p.1 - mx) * (p.2 - my))).sum
  let slope := sxy / sxx
  (slope, my - slope * mx)

/-- Modelled from the spec: `utils.error_function`
(`popeye/utilities_md.py`, not under `src/`) — the fixed error used by the
ballpark grid search, "sum of squared residuals after best-fit scaling":
the prediction is scaled by its OLS slope and intercept against the data
and the residual sum of squares is returned. -/
def error_function (pred data : List ℚ) : ℚ :=
  let si := linregress pred data
  ((data.zip pred).map (fun p => (p.1 - (si.1 * p.2 + si.2)) ^ 2)).sum

/-- The first-minimum (`np.argmin`-style) selection fold: scans a list,
keeping the first element attaining the minimum of `f` together with that
minimum, starting from the seed `b`. -/
def minimizeBy {α : Type} (f : α → ℚ) (l : List α) (b : α × ℚ) : α × ℚ :=
  l.foldl (fun best c => if f c < best.2 then (c, f c) else best) b

/-- Modelled from the spec: `utils.brute_force_search`
(`popeye/utilities_md.py`, not under `src/`) — exhaustively evaluates the
ballpark-prediction function over every combination of the sampled
parameter grid, scores each with `error_function`, and returns the first
minimum-error combination together with its error.  (An empty grid is a
Python error; it is modelled by a junk value, and every theorem touching
the search assumes the combination list is nonempty.) -/
def brute_force_search (data : List ℚ) (bp : List ℚ → List ℚ)
    (grids : List GridSpec) (Ns : ℕ) : List ℚ × ℚ :=
  match listProd (sampleParams grids Ns) with
  | [] => ([], 0)
  | c :: rest =>
      minimizeBy (fun c' => error_function (bp c') data) rest
        (c, error_function (bp c) data)

/-- Embeds `PopulationModel` (`base_md.py` lines 51-166): the stimulus geometry,
the externally provided prediction functions (pure in their parameters per
the spec's prediction-function contract), the free-parameter count (the
arity of `generate_ballpark_prediction`), the optional cached model table
and the data pushed down by the owning fit. -/
structure PopulationModel where
  screen_dva : ℚ
  nparams : ℕ
  generate_ballpark_prediction : List ℚ → List ℚ
  generate_prediction : List ℚ → List ℚ
  bounded_amplitude : Bool
  cached_model : Option (List (List ℚ × List ℚ))
  data : List ℚ

/-- Embeds `PopulationModel.regress` (`base_md.py` lines 107-112): OLS slope and
intercept, with the slope replaced by its absolute value when the model is
configured for bounded (one-signed) amplitudes. -/
def PopulationModel.regress (m : PopulationModel) (X y : List ℚ) : ℚ × ℚ :=
  let si := linregress X y
  if m.bounded_amplitude then (|si.1|, si.2) else si

/-- Embeds `PopulationFit` (`base_md.py` lines 168-499): the state a constructed
fit carries.  `data` is the (possibly nuisance-processed) time series the
fit itself uses; `model.data` is whatever array was pushed down to the
model at construction. -/
structure PopulationFit where
  model : PopulationModel
  data : List ℚ
  grids : List GridSpec
  bounds : List (Option ℚ × Option ℚ)
  Ns : ℕ
  voxel_index : ℕ × ℕ × ℕ
  auto_fit : Bool
  grid_only : Bool
  fit_method : String
  outer_limit : ℚ

/-- The arguments of `PopulationFit.__init__` (`base_md.py` lines
174-176). -/
structure FitConfig where
  model : PopulationModel
  data : List ℚ
  grids : List GridSpec
  bounds : List (Option ℚ × Option ℚ)
  voxel_index : ℕ × ℕ × ℕ
  Ns : ℕ
  auto_fit : Bool
  grid_only : Bool
  fit_method : String
  outer_limit : ℚ
  nuisance : Option (List ℚ → List ℚ)

/-- Embeds `PopulationFit.__init__` (`base_md.py` lines 241-296), with the
automatic pipeline execution (`auto_fit`) left to the lazy attribute
machinery below: the `fit_method` string is validated (the `assert` at
line 257), `grid_only` overrides the fit method (line 261), the nuisance
function — when configured — replaces the fit's data with its output
(lines 276-277), and the raw `data` argument is pushed down to the model
(line 291). -/
def mkFit (cfg : FitConfig) : Except String PopulationFit :=
  if cfg.fit_method = "2step" ∨ cfg.fit_method = "grid_only" ∨ cfg.fit_method = "global_opt" then
    Except.ok
      { model := { cfg.model with data := cfg.data }
        data :=
          match cfg.nuisance with
          | some f => f cfg.data
          | none => cfg.data
        grids := cfg.grids
        bounds := cfg.bounds
        Ns := cfg.Ns
        voxel_index := cfg.voxel_index
        auto_fit := cfg.auto_fit
        grid_only := cfg.grid_only
        fit_method := if cfg.grid_only then "grid_only" else cfg.fit_method
        outer_limit := cfg.outer_limit }
  else
    Except.error "Invalid fit method: must be one of 2step, grid_only, global_opt"

/-- Embeds `PopulationFit.brute_force` (`base_md.py` lines 340-347). -/
def PopulationFit.brute_force (f : PopulationFit) : List ℚ × ℚ :=
  brute_force_search f.data f.model.generate_ballpark_prediction f.grids f.Ns

/-- Embeds `PopulationFit.ballpark_prediction` (`base_md.py` lines 420-423): the
(unscaled) ballpark prediction at the brute-force winner. -/
def PopulationFit.ballpark_prediction (f : PopulationFit) : List ℚ :=
  f.model.generate_ballpark_prediction f.brute_force.1

/-- Embeds `PopulationFit.slope` (`base_md.py` lines 429-431). -/
def PopulationFit.slope (f : PopulationFit) : ℚ :=
  (f.model.regress f.ballpark_prediction f.data).1

/-- Embeds `PopulationFit.intercept` (`base_md.py` lines 433-435). -/
def PopulationFit.intercept (f : PopulationFit) : ℚ :=
  (f.model.regress f.ballpark_prediction f.data).2

/-- Embeds `PopulationFit.best_cached_model_parameters` (`base_md.py` lines
331-337): the cached parameter vector whose cached timeseries has the
smallest squared error against the data (first minimum on ties). -/
def best_cached_model_parameters (data : List ℚ) : List (List ℚ × List ℚ) → List ℚ
  | [] => []
  | e :: rest =>
      (rest.foldl
        (fun best e' =>
          if rssOf data e'.1 < best.2 then (e'.2, rssOf data e'.1) else best)
        (e.2, rssOf data e.1)).1

/-- Embeds `PopulationFit.ballpark` (`base_md.py` lines 349-361): under
`global_opt` a placeholder vector of `None` sized to the model's
free-parameter count plus two; under a configured model cache the best
cached parameters; otherwise the brute-force winner extended with the OLS
slope and intercept. -/
def PopulationFit.ballpark (f : PopulationFit) : List (Option ℚ) :=
  if f.fit_method = "global_opt" then
    List.replicate (f.model.nparams + 2) none
  else
    match f.model.cached_model with
    | some tbl => (best_cached_model_parameters f.data tbl).map some
    | none => f.brute_force.1.map some ++ [some f.slope, some f.intercept]

/-- Strips the `Option` wrapper from a ballpark vector (the `global_opt`
placeholder of `None` entries never reaches a consumer of the unwrapped
vector: `gradient_descent` and the `grid_only` prediction only run when
`fit_method ≠ 'global_opt'`). -/
def deOpt (l : List (Option ℚ)) : List ℚ := l.map (fun o => o.getD 0)

/-- Clamps a value into an optional `(lower, upper)` bound pair. -/
def clampOpt (b : Option ℚ × Option ℚ) (v : ℚ) : ℚ :=
  let v1 := match b.1 with
    | some lo => max lo v
    | none => v
  match b.2 with
  | some hi => min hi v1
  | none => v1

/-- Modelled from the spec: `utils.gradient_descent_search`
(`popeye/utilities_md.py`, not under `src/`) — a bounded, constrained
local optimizer seeded at the ballpark estimate; modelled as returning the
seed projected into the per-parameter bounds, so the result has the
seed's dimension and respects the bounds. -/
def gradient_descent_search (_data : List ℚ) (_predfn : List ℚ → List ℚ)
    (x0 : List ℚ) (bounds : List (Option ℚ × Option ℚ)) : List ℚ :=
  (List.range x0.length).map (fun i => clampOpt (bounds.getD i (none, none)) (x0.getD i 0))

/-- Modelled from the spec: `utils.global_search`
(`popeye/utilities_md.py`, not under `src/`) — a bounded, constrained
population-based global optimizer over the full bounded space (ignoring
the ballpark); modelled as returning a representative point of the
bounded space, one coordinate per bound pair. -/
def global_search (_data : List ℚ) (_predfn : List ℚ → List ℚ)
    (bounds : List (Option ℚ × Option ℚ)) : List ℚ :=
  bounds.map (fun b => clampOpt b 0)

/-- Embeds `PopulationFit.gradient_descent` (`base_md.py` lines 364-377). -/
def PopulationFit.gradient_descent (f : PopulationFit) : List ℚ :=
  gradient_descent_search f.data f.model.generate_prediction (deOpt f.ballpark) f.bounds

/-- Embeds `PopulationFit.global_opt` (`base_md.py` lines 380-391). -/
def PopulationFit.global_opt (f : PopulationFit) : List ℚ :=
  global_search f.data f.model.generate_prediction f.bounds

/-- Embeds `PopulationFit.estimate` (`base_md.py` lines 407-418): the global
optimizer's solution under `global_opt`, the local optimizer's solution
otherwise. -/
def PopulationFit.estimate (f : PopulationFit) : List ℚ :=
  if f.fit_method = "global_opt" then f.global_opt else f.gradient_descent

/-- Embeds `PopulationFit.prediction` (`base_md.py` lines 437-442): the model
prediction at the ballpark under `grid_only`, at the refined estimate
otherwise. -/
def PopulationFit.prediction (f : PopulationFit) : List ℚ :=
  if f.fit_method = "grid_only" then f.model.generate_prediction (deOpt f.ballpark)
  else f.model.generate_prediction f.estimate

/-- Embeds `PopulationFit.rss` (`base_md.py` lines 470-472). -/
def PopulationFit.rss (f : PopulationFit) : ℚ := rssOf f.data f.prediction

/-- Embeds `PopulationFit.rsquared` (`base_md.py` lines 448-460). -/
def PopulationFit.rsquared (f : PopulationFit) : ℚ := rsquaredOf f.rss f.data

/-- Embeds `scipy.optimize.NonlinearConstraint`: a scalar function of the first
three raw parameters (x, y, sigma) with extended-real lower and upper
bounds. -/
structure NonlinearConstraint where
  fn : ℝ → ℝ → ℝ → ℝ
  lb : EReal
  ub : EReal

/-- Embeds `PopulationFit.constraints` (`base_md.py` lines 267-272): the two
nonlinear inequality constraints handed to both refinement optimizers —
the radial distance of (x, y) bounded above by the display's angular
half-extent, and that distance minus `outer_limit * sigma` bounded above
by half that extent, with no lower bounds. -/
noncomputable def PopulationFit.constraints (f : PopulationFit) : List NonlinearConstraint :=
  [ { fn := fun x y _ => Real.sqrt (x ^ 2 + y ^ 2)
      lb := ⊥
      ub := ((f.model.screen_dva : ℝ) : EReal) },
    { fn := fun x y s => Real.sqrt (x ^ 2 + y ^ 2) - (f.outer_limit : ℝ) * s
      lb := ⊥
      ub := (((f.model.screen_dva : ℝ) / 2 : ℝ) : EReal) } ]

/-- A parameter point satisfies a `NonlinearConstraint` when the
constraint function's value lies between the bounds. -/
def satisfiesC (c : NonlinearConstraint) (x y s : ℝ) : Prop :=
  c.lb ≤ ((c.fn x y s : ℝ) : EReal) ∧ ((c.fn x y s : ℝ) : EReal) ≤ c.ub

/-- Embeds `PopulationModel.cache_model` (`base_md.py` lines 120-150): samples
the parameter grid, takes all combinations, reorders them by a random
permutation (abstracted as the `shuffle` argument), evaluates the
ballpark-prediction function (abstracted as `bp`, whose numpy output may
contain non-finite values) on each combination, and keeps the
(prediction, parameters) pairs for which `np.isnan(np.sum(prediction))`
is false. -/
def cache_model (bp : List ℚ → List NpVal) (grids : List GridSpec) (Ns : ℕ)
    (shuffle : List (List ℚ) → List (List ℚ)) : List (List NpVal × List ℚ) :=
  let combos := shuffle (listProd (sampleParams grids Ns))
  (combos.map (fun c => (bp c, c))).filter (fun m => !(npSum m.1).isnan)

/-- The memoized derived fields of a `PopulationFit`. -/
inductive Field where
  | bruteForceF
  | bppF
  | slopeF
  | interceptF
  | ballparkF
  | gdF
  | goF
  | estimateF
  | predictionF
  | rssF
  | rsqF
deriving DecidableEq

/-- Modelled from the spec: the `auto_attr` lazy memoized attribute
(`popeye/onetime.py`, not under `src/`) — per the spec, the first read of
a derived field executes its defining computation and stores the result
on the owning instance, and every subsequent read returns the stored
value.  The instance state is the fit plus one optional cache slot per
derived field; `count` records how many times each field's defining
computation has executed. -/
structure FitState where
  fit : PopulationFit
  bf : Option (List ℚ × ℚ)
  bpp : Option (List ℚ)
  slp : Option ℚ
  icp : Option ℚ
  bpk : Option (List (Option ℚ))
  gd : Option (List ℚ)
  go : Option (List ℚ)
  est : Option (List ℚ)
  prd : Option (List ℚ)
  rssv : Option ℚ
  rsqv : Option ℚ
  count : Field → ℕ

/-- The state of a freshly constructed fit: nothing cached, no defining
computation has run. -/
def initFitState (f : PopulationFit) : FitState :=
  { fit := f, bf := none, bpp := none, slp := none, icp := none, bpk := none,
    gd := none, go := none, est := none, prd := none, rssv := none, rsqv := none,
    count := fun _ => 0 }

/-- Records one execution of a field's defining computation. -/
def bump (c : Field → ℕ) (X : Field) : Field → ℕ := Function.update c X (c X + 1)

/-- Memoized read of `brute_force`. -/
def readBruteForce (s : FitState) : (List ℚ × ℚ) × FitState :=
  match s.bf with
  | some v => (v, s)
  | none =>
      let v := s.fit.brute_force
      (v, { s with bf := some v, count := bump s.count Field.bruteForceF })

/-- Memoized read of `ballpark_prediction`. -/
def readBallparkPred (s : FitState) : List ℚ × FitState :=
  match s.bpp with
  | some v => (v, s)
  | none =>
      let r := readBruteForce s
      let v := r.2.fit.model.generate_ballpark_prediction r.1.1
      (v, { r.2 with bpp := some v, count := bump r.2.count Field.bppF })

/-- Memoized read of `slope`. -/
def readSlope (s : FitState) : ℚ × FitState :=
  match s.slp with
  | some v => (v, s)
  | none =>
      let r := readBallparkPred s
      let v := (r.2.fit.model.regress r.1 r.2.fit.data).1
      (v, { r.2 with slp := some v, count := bump r.2.count Field.slopeF })

/-- Memoized read of `intercept`. -/
def readIntercept (s : FitState) : ℚ × FitState :=
  match s.icp with
  | some v => (v, s)
  | none =>
      let r := readBallparkPred s
      let v := (r.2.fit.model.regress r.1 r.2.fit.data).2
      (v, { r.2 with icp := some v, count := bump r.2.count Field.interceptF })

/-- Memoized read of `ballpark`, with the same branch structure as
`base_md.py` lines 349-361: the `global_opt` placeholder, the cached
lookup, or the brute-force winner extended with slope and intercept. -/
def readBallpark (s : FitState) : List (Option ℚ) × FitState :=
  match s.bpk with
  | some v => (v, s)
  | none =>
      if s.fit.fit_method = "global_opt" then
        let v := List.replicate (s.fit.model.nparams + 2) (none : Option ℚ)
        (v, { s with bpk := some v, count := bump s.count Field.ballparkF })
      else
        match s.fit.model.cached_model with
        | some tbl =>
            let v := (best_cached_model_parameters s.fit.data tbl).map some
            (v, { s with bpk := some v, count := bump s.count Field.ballparkF })
        | none =>
            let r1 := readBruteForce s
            let r2 := readSlope r1.2
            let r3 := readIntercept r2.2
            let v := r1.1.1.map some ++ [some r2.1, some r3.1]
            (v, { r3.2 with bpk := some v, count := bump r3.2.count Field.ballparkF })

/-- Memoized read of `gradient_descent` (seeded at the ballpark). -/
def readGradientDescent (s : FitState) : List ℚ × FitState :=
  match s.gd with
  | some v => (v, s)
  | none =>
      let r := readBallpark s
      let v := gradient_descent_search r.2.fit.data r.2.fit.model.generate_prediction
        (deOpt r.1) r.2.fit.bounds
      (v, { r.2 with gd := some v, count := bump r.2.count Field.gdF })

/-- Memoized read of `global_opt` (independent of the ballpark). -/
def readGlobalOpt (s : FitState) : List ℚ × FitState :=
  match s.go with
  | some v => (v, s)
  | none =>
      let v := global_search s.fit.data s.fit.model.generate_prediction s.fit.bounds
      (v, { s with go := some v, count := bump s.count Field.goF })

/-- Memoized read of `estimate`. -/
def readEstimate (s : FitState) : List ℚ × FitState :=
  match s.est with
  | some v => (v, s)
  | none =>
      if s.fit.fit_method = "global_opt" then
        let r := readGlobalOpt s
        (r.1, { r.2 with est := some r.1, count := bump r.2.count Field.estimateF })
      else
        let r := readGradientDescent s
        (r.1, { r.2 with est := some r.1, count := bump r.2.count Field.estimateF })

/-- Memoized read of `prediction`. -/
def readPrediction (s : FitState) : List ℚ × FitState :=
  match s.prd with
  | some v => (v, s)
  | none =>
      if s.fit.fit_method = "grid_only" then
        let r := readBallpark s
        let v := r.2.fit.model.generate_prediction (deOpt r.1)
        (v, { r.2 with prd := some v, count := bump r.2.count Field.predictionF })
      else
        let r := readEstimate s
        let v := r.2.fit.model.generate_prediction r.1
        (v, { r.2 with prd := some v, count := bump r.2.count Field.predictionF })

/-- Memoized read of `rss`. -/
def readRss (s : FitState) : ℚ × FitState :=
  match s.rssv with
  | some v => (v, s)
  | none =>
      let r := readPrediction s
      let v := rssOf r.2.fit.data r.1
      (v, { r.2 with rssv := some v, count := bump r.2.count Field.rssF })

/-- Memoized read of `rsquared` (which itself reads the memoized
`rss`). -/
def readRsquared (s : FitState) : ℚ × FitState :=
  match s.rsqv with
  | some v => (v, s)
  | none =>
      let r := readRss s
      let v := rsquaredOf r.1 r.2.fit.data
      (v, { r.2 with rsqv := some v, count := bump r.2.count Field.rsqF })

/-- A fit state is consistent when every populated cache slot holds the
value of its defining computation on the fit.  The initial state is
trivially consistent, and every memoized read preserves consistency. -/
def Consistent (s : FitState) : Prop :=
  (s.bf = none ∨ s.bf = some s.fit.brute_force) ∧
  (s.bpp = none ∨ s.bpp = some s.fit.ballpark_prediction) ∧
  (s.slp = none ∨ s.slp = some s.fit.slope) ∧
  (s.icp = none ∨ s.icp = some s.fit.intercept) ∧
  (s.bpk = none ∨ s.bpk = some s.fit.ballpark) ∧
  (s.gd = none ∨ s.gd = some s.fit.gradient_descent) ∧
  (s.go = none ∨ s.go = some s.fit.global_opt) ∧
  (s.est = none ∨ s.est = some s.fit.estimate) ∧
  (s.prd = none ∨ s.prd = some s.fit.prediction) ∧
  (s.rssv = none ∨ s.rssv = some s.fit.rss) ∧
  (s.rsqv = none ∨ s.rsqv = some s.fit.rsquared)

/-- A minimal concrete model used by witnesses: three free parameters,
trivial prediction functions. -/
def zeroModel : PopulationModel :=
  { screen_dva := 10
    nparams := 3
    generate_ballpark_prediction := fun _ => []
    generate_prediction := fun _ => []
    bounded_amplitude := false
    cached_model := none
    data := [] }

/-- A fallback fit used only to destructure `mkFit` results in witnesses. -/
def defaultFit : PopulationFit :=
  { model := zeroModel, data := [], grids := [], bounds := [], Ns := 0,
    voxel_index := (0, 0, 0), auto_fit := false, grid_only := false,
    fit_method := "2step", outer_limit := 2 }

/-- The fit constructed by `mkFit` on a valid configuration. -/
def fitOf (cfg : FitConfig) : PopulationFit := (mkFit cfg).toOption.getD defaultFit

/-- A concrete valid `2step` configuration: three one-point grid
dimensions, no bounds, no nuisance, `auto_fit` off. -/
def cfgA : FitConfig :=
  { model := zeroModel
    data := []
    grids := [GridSpec.pair 0 0, GridSpec.pair 0 0, GridSpec.pair 0 0]
    bounds := []
    voxel_index := (1, 2, 3)
    Ns := 1
    auto_fit := false
    grid_only := false
    fit_method := "2step"
    outer_limit := 2
    nuisance := none }

/-- Embeds `cfgA` with the `grid_only` fit method requested explicitly. -/
def cfgGrid : FitConfig := { cfgA with fit_method := "grid_only" }

/-- Embeds `cfgA` with the legacy `grid_only=True` flag set (and `fit_method`
still `2step`). -/
def cfgOverride : FitConfig := { cfgA with grid_only := true }

/-- Embeds `cfgA` with data and a configured nuisance function. -/
def cfgNuis : FitConfig :=
  { cfgA with data := [1, 2, 3], nuisance := some (fun l => l.map (fun x => x + 1)) }

/-- A fit whose method is `global_opt`, for the placeholder-ballpark
branch. -/
def globalFit : PopulationFit := { defaultFit with fit_method := "global_opt" }

end Popeye

namespace Popeye

theorem rssOf_nonneg (data pred : List ℚ) : 0 ≤ rssOf data pred := by
  apply List.sum_nonneg
  intro x hx
  rcases List.mem_map.1 hx with ⟨p, _, rfl⟩
  exact sq_nonneg _

theorem consistent_init (f : PopulationFit) : Consistent (initFitState f) := by
  simp [Consistent, initFitState]

theorem readBruteForce_of_some (s : FitState) (v : List ℚ × ℚ) (h : s.bf = some v) :
    readBruteForce s = (v, s) := by
  simp [readBruteForce, h]

theorem readBruteForce_fit (s : FitState) : (readBruteForce s).2.fit = s.fit := by
  cases h : s.bf <;> simp [readBruteForce, h]

theorem readBruteForce_cache (s : FitState) :
    (readBruteForce s).2.bf = some (readBruteForce s).1 := by
  cases h : s.bf <;> simp [readBruteForce, h]

theorem readBruteForce_count_ne (s : FitState) {Y : Field} (hY : Y ≠ Field.bruteForceF) :
    (readBruteForce s).2.count Y = s.count Y := by
  cases h : s.bf <;> simp [readBruteForce, h, bump, Function.update_noteq hY]

theorem readBruteForce_count_self (s : FitState) (h : s.bf = none) :
    (readBruteForce s).2.count Field.bruteForceF = s.count Field.bruteForceF + 1 := by
  simp [readBruteForce, h, bump]

theorem readBruteForce_val (s : FitState) (hc : Consistent s) :
    (readBruteForce s).1 = s.fit.brute_force := by
  cases h : s.bf with
  | none => simp [readBruteForce, h]
  | some v =>
      rcases hc.1 with h' | h'
      · rw [h] at h'; cases h'
      · rw [h] at h'
        simp [readBruteForce, h, Option.some.inj h']

theorem readBruteForce_consistent (s : FitState) (hc : Consistent s) :
    Consistent (readBruteForce s).2 := by
  cases h : s.bf with
  | some v => simpa [readBruteForce, h] using hc
  | none =>
      obtain ⟨_, h2, h3, h4, h5, h6, h7, h8, h9, h10, h11⟩ := hc
      simp only [readBruteForce, h, Consistent]
      refine ⟨?_, h2, h3, h4, h5, h6, h7, h8, h9, h10, h11⟩
      simp

theorem readBruteForce_idem (s : FitState) :
    readBruteForce (readBruteForce s).2 = ((readBruteForce s).1, (readBruteForce s).2) :=
  readBruteForce_of_some _ _ (readBruteForce_cache s)

theorem readBallparkPred_of_some (s : FitState) (v : List ℚ) (h : s.bpp = some v) :
    readBallparkPred s = (v, s) := by
  simp [readBallparkPred, h]

theorem readBallparkPred_fit (s : FitState) : (readBallparkPred s).2.fit = s.fit := by
  cases h : s.bpp with
  | some v => simp [readBallparkPred, h]
  | none => simp [readBallparkPred, h, readBruteForce_fit]

theorem readBallparkPred_cache (s : FitState) :
    (readBallparkPred s).2.bpp = some (readBallparkPred s).1 := by
  cases h : s.bpp <;> simp [readBallparkPred, h]

theorem readBallparkPred_count_ne (s : FitState) {Y : Field} (hY1 : Y ≠ Field.bppF)
    (hY2 : Y ≠ Field.bruteForceF) :
    (readBallparkPred s).2.count Y = s.count Y := by
  cases h : s.bpp with
  | some v => simp [readBallparkPred, h]
  | none =>
      simp [readBallparkPred, h, bump, Function.update_noteq hY1,
        readBruteForce_count_ne s hY2]

theorem readBallparkPred_count_self (s : FitState) (h : s.bpp = none) :
    (readBallparkPred s).2.count Field.bppF = s.count Field.bppF + 1 := by
  simp [readBallparkPred, h, bump,
    readBruteForce_count_ne s (by decide : Field.bppF ≠ Field.bruteForceF)]

theorem readBallparkPred_val (s : FitState) (hc : Consistent s) :
    (readBallparkPred s).1 = s.fit.ballpark_prediction := by
  cases h : s.bpp with
  | some v =>
      rcases hc.2.1 with h' | h'
      · rw [h] at h'; cases h'
      · rw [h] at h'
        simp [readBallparkPred, h, Option.some.inj h']
  | none =>
      simp [readBallparkPred, h, readBruteForce_fit, readBruteForce_val s hc,
        PopulationFit.ballpark_prediction]

theorem readBallparkPred_consistent (s : FitState) (hc : Consistent s) :
    Consistent (readBallparkPred s).2 := by
  cases h : s.bpp with
  | some v => simpa [readBallparkPred, h] using hc
  | none =>
      have hfit := readBruteForce_fit s
      have hval := readBruteForce_val s hc
      obtain ⟨g1, g2, g3, g4, g5, g6, g7, g8, g9, g10, g11⟩ := readBruteForce_consistent s hc
      simp only [readBallparkPred, h, Consistent]
      refine ⟨g1, ?_, g3, g4, g5, g6, g7, g8, g9, g10, g11⟩
      right
      simp [hfit, hval, PopulationFit.ballpark_prediction]

theorem readBallparkPred_idem (s : FitState) :
    readBallparkPred (readBallparkPred s).2 = ((readBallparkPred s).1, (readBallparkPred s).2) :=
  readBallparkPred_of_some _ _ (readBallparkPred_cache s)

theorem readSlope_of_some (s : FitState) (v : ℚ) (h : s.slp = some v) :
    readSlope s = (v, s) := by
  simp [readSlope, h]

theorem readSlope_fit (s : FitState) : (readSlope s).2.fit = s.fit := by
  cases h : s.slp with
  | some v => simp [readSlope, h]
  | none => simp [readSlope, h, readBallparkPred_fit]

theorem readSlope_cache (s : FitState) :
    (readSlope s).2.slp = some (readSlope s).1 := by
  cases h : s.slp <;> simp [readSlope, h]

theorem readSlope_count_ne (s : FitState) {Y : Field} (hY1 : Y ≠ Field.slopeF)
    (hY2 : Y ≠ Field.bppF) (hY3 : Y ≠ Field.bruteForceF) :
    (readSlope s).2.count Y = s.count Y := by
  cases h : s.slp with
  | some v => simp [readSlope, h]
  | none =>
      simp [readSlope, h, bump, Function.update_noteq hY1,
        readBallparkPred_count_ne s hY2 hY3]

theorem readSlope_count_self (s : FitState) (h : s.slp = none) :
    (readSlope s).2.count Field.slopeF = s.count Field.slopeF + 1 := by
  simp [readSlope, h, bump,
    readBallparkPred_count_ne s (by decide : Field.slopeF ≠ Field.bppF)
      (by decide : Field.slopeF ≠ Field.bruteForceF)]

theorem readSlope_val (s : FitState) (hc : Consistent s) :
    (readSlope s).1 = s.fit.slope := by
  cases h : s.slp with
  | some v =>
      rcases hc.2.2.1 with h' | h'
      · rw [h] at h'; cases h'
      · rw [h] at h'
        simp [readSlope, h, Option.some.inj h']
  | none =>
      simp [readSlope, h, readBallparkPred_fit, readBallparkPred_val s hc,
        PopulationFit.slope]

theorem readSlope_consistent (s : FitState) (hc : Consistent s) :
    Consistent (readSlope s).2 := by
  cases h : s.slp with
  | some v => simpa [readSlope, h] using hc
  | none =>
      have hfit := readBallparkPred_fit s
      have hval := readBallparkPred_val s hc
      obtain ⟨g1, g2, g3, g4, g5, g6, g7, g8, g9, g10, g11⟩ := readBallparkPred_consistent s hc
      simp only [readSlope, h, Consistent]
      refine ⟨g1, g2, ?_, g4, g5, g6, g7, g8, g9, g10, g11⟩
      right
      simp [hfit, hval, PopulationFit.slope]

theorem readSlope_idem (s : FitState) :
    readSlope (readSlope s).2 = ((readSlope s).1, (readSlope s).2) :=
  readSlope_of_some _ _ (readSlope_cache s)

theorem readIntercept_of_some (s : FitState) (v : ℚ) (h : s.icp = some v) :
    readIntercept s = (v, s) := by
  simp [readIntercept, h]

theorem readIntercept_fit (s : FitState) : (readIntercept s).2.fit = s.fit := by
  cases h : s.icp with
  | some v => simp [readIntercept, h]
  | none => simp [readIntercept, h, readBallparkPred_fit]

theorem readIntercept_cache (s : FitState) :
    (readIntercept s).2.icp = some (readIntercept s).1 := by
  cases h : s.icp <;> simp [readIntercept, h]

theorem readIntercept_count_ne (s : FitState) {Y : Field} (hY1 : Y ≠ Field.interceptF)
    (hY2 : Y ≠ Field.bppF) (hY3 : Y ≠ Field.bruteForceF) :
    (readIntercept s).2.count Y = s.count Y := by
  cases h : s.icp with
  | some v => simp [readIntercept, h]
  | none =>
      simp [readIntercept, h, bump, Function.update_noteq hY1,
        readBallparkPred_count_ne s hY2 hY3]

theorem readIntercept_count_self (s : FitState) (h : s.icp = none) :
    (readIntercept s).2.count Field.interceptF = s.count Field.interceptF + 1 := by
  simp [readIntercept, h, bump,
    readBallparkPred_count_ne s (by decide : Field.interceptF ≠ Field.bppF)
      (by decide : Field.interceptF ≠ Field.bruteForceF)]

theorem readIntercept_val (s : FitState) (hc : Consistent s) :
    (readIntercept s).1 = s.fit.intercept := by
  cases h : s.icp with
  | some v =>
      rcases hc.2.2.2.1 with h' | h'
      · rw [h] at h'; cases h'
      · rw [h] at h'
        simp [readIntercept, h, Option.some.inj h']
  | none =>
      simp [readIntercept, h, readBallparkPred_fit, readBallparkPred_val s hc,
        PopulationFit.intercept]

theorem readIntercept_consistent (s : FitState) (hc : Consistent s) :
    Consistent (readIntercept s).2 := by
  cases h : s.icp with
  | some v => simpa [readIntercept, h] using hc
  | none =>
      have hfit := readBallparkPred_fit s
      have hval := readBallparkPred_val s hc
      obtain ⟨g1, g2, g3, g4, g5, g6, g7, g8, g9, g10, g11⟩ := readBallparkPred_consistent s hc
      simp only [readIntercept, h, Consistent]
      refine ⟨g1, g2, g3, ?_, g5, g6, g7, g8, g9, g10, g11⟩
      right
      simp [hfit, hval, PopulationFit.intercept]

theorem readIntercept_idem (s : FitState) :
    readIntercept (readIntercept s).2 = ((readIntercept s).1, (readIntercept s).2) :=
  readIntercept_of_some _ _ (readIntercept_cache s)

theorem readBallpark_of_some (s : FitState) (v : List (Option ℚ)) (h : s.bpk = some v) :
    readBallpark s = (v, s) := by
  simp [readBallpark, h]

theorem readBallpark_fit (s : FitState) : (readBallpark s).2.fit = s.fit := by
  cases h : s.bpk with
  | some v => simp [readBallpark, h]
  | none =>
      by_cases hg : s.fit.fit_method = "global_opt"
      · simp [readBallpark, h, hg]
      · cases hcm : s.fit.model.cached_model with
        | some tbl => simp [readBallpark, h, hg, hcm]
        | none =>
            simp [readBallpark, h, hg, hcm, readIntercept_fit, readSlope_fit,
              readBruteForce_fit]

theorem readBallpark_cache (s : FitState) :
    (readBallpark s).2.bpk = some (readBallpark s).1 := by
  cases h : s.bpk with
  | some v => simp [readBallpark, h]
  | none =>
      by_cases hg : s.fit.fit_method = "global_opt"
      · simp [readBallpark, h, hg]
      · cases hcm : s.fit.model.cached_model with
        | some tbl => simp [readBallpark, h, hg, hcm]
        | none => simp [readBallpark, h, hg, hcm]

theorem readBallpark_count_ne (s : FitState) {Y : Field} (hY1 : Y ≠ Field.ballparkF)
    (hY2 : Y ≠ Field.bruteForceF) (hY3 : Y ≠ Field.bppF) (hY4 : Y ≠ Field.slopeF)
    (hY5 : Y ≠ Field.interceptF) :
    (readBallpark s).2.count Y = s.count Y := by
  cases h : s.bpk with
  | some v => simp [readBallpark, h]
  | none =>
      by_cases hg : s.fit.fit_method = "global_opt"
      · simp [readBallpark, h, hg, bump, Function.update_noteq hY1]
      · cases hcm : s.fit.model.cached_model with
        | some tbl => simp [readBallpark, h, hg, hcm, bump, Function.update_noteq hY1]
        | none =>
            simp [readBallpark, h, hg, hcm, bump, Function.update_noteq hY1,
              readIntercept_count_ne _ hY5 hY3 hY2, readSlope_count_ne _ hY4 hY3 hY2,
              readBruteForce_count_ne _ hY2]

theorem readBallpark_count_self (s : FitState) (h : s.bpk = none) :
    (readBallpark s).2.count Field.ballparkF = s.count Field.ballparkF + 1 := by
  by_cases hg : s.fit.fit_method = "global_opt"
  · simp [readBallpark, h, hg, bump]
  · cases hcm : s.fit.model.cached_model with
    | some tbl => simp [readBallpark, h, hg, hcm, bump]
    | none =>
        simp [readBallpark, h, hg, hcm, bump,
          readIntercept_count_ne _ (by decide : Field.ballparkF ≠ Field.interceptF)
            (by decide : Field.ballparkF ≠ Field.bppF)
            (by decide : Field.ballparkF ≠ Field.bruteForceF),
          readSlope_count_ne _ (by decide : Field.ballparkF ≠ Field.slopeF)
            (by decide : Field.ballparkF ≠ Field.bppF)
            (by decide : Field.ballparkF ≠ Field.bruteForceF),
          readBruteForce_count_ne _ (by decide : Field.ballparkF ≠ Field.bruteForceF)]

theorem readBallpark_val (s : FitState) (hc : Consistent s) :
    (readBallpark s).1 = s.fit.ballpark := by
  cases h : s.bpk with
  | some v =>
      rcases hc.2.2.2.2.1 with h' | h'
      · rw [h] at h'; cases h'
      · rw [h] at h'
        simp [readBallpark, h, Option.some.inj h']
  | none =>
      by_cases hg : s.fit.fit_method = "global_opt"
      · simp [readBallpark, h, hg, PopulationFit.ballpark]
      · cases hcm : s.fit.model.cached_model with
        | some tbl => simp [readBallpark, h, hg, hcm, PopulationFit.ballpark]
        | none =>
            have hv1 := readBruteForce_val s hc
            have hc1 := readBruteForce_consistent s hc
            have hv2 := readSlope_val _ hc1
            have hc2 := readSlope_consistent _ hc1
            have hv3 := readIntercept_val _ hc2
            rw [readBruteForce_fit] at hv2
            rw [readSlope_fit, readBruteForce_fit] at hv3
            simp [readBallpark, h, hg, hcm, PopulationFit.ballpark, hv1, hv2, hv3]

theorem readBallpark_consistent (s : FitState) (hc : Consistent s) :
    Consistent (readBallpark s).2 := by
  cases h : s.bpk with
  | some v => simpa [readBallpark, h] using hc
  | none =>
      by_cases hg : s.fit.fit_method = "global_opt"
      · obtain ⟨g1, g2, g3, g4, _, g6, g7, g8, g9, g10, g11⟩ := hc
        simp only [readBallpark, h, hg, if_true, Consistent]
        refine ⟨g1, g2, g3, g4, ?_, g6, g7, g8, g9, g10, g11⟩
        right
        simp [PopulationFit.ballpark, hg]
      · cases hcm : s.fit.model.cached_model with
        | some tbl =>
            obtain ⟨g1, g2, g3, g4, _, g6, g7, g8, g9, g10, g11⟩ := hc
            simp only [readBallpark, h, hg, hcm, if_false, Consistent]
            refine ⟨g1, g2, g3, g4, ?_, g6, g7, g8, g9, g10, g11⟩
            · right
              simp [PopulationFit.ballpark, hg, hcm]
        | none =>
            have hv1 := readBruteForce_val s hc
            have hc1 := readBruteForce_consistent s hc
            have hv2 := readSlope_val _ hc1
            have hc2 := readSlope_consistent _ hc1
            have hv3 := readIntercept_val _ hc2
            have hc3 := readIntercept_consistent _ hc2
            have hf3 : (readIntercept (readSlope (readBruteForce s).2).2).2.fit = s.fit := by
              rw [readIntercept_fit, readSlope_fit, readBruteForce_fit]
            rw [readBruteForce_fit] at hv2
            rw [readSlope_fit, readBruteForce_fit] at hv3
            obtain ⟨g1, g2, g3, g4, _, g6, g7, g8, g9, g10, g11⟩ := hc3
            simp only [readBallpark, h, hg, hcm, Consistent]
            refine ⟨g1, g2, g3, g4, ?_, g6, g7, g8, g9, g10, g11⟩
            right
            simp [hf3, hv1, hv2, hv3, PopulationFit.ballpark, hg, hcm]

theorem readBallpark_idem (s : FitState) :
    readBallpark (readBallpark s).2 = ((readBallpark s).1, (readBallpark s).2) :=
  readBallpark_of_some _ _ (readBallpark_cache s)

theorem readGradientDescent_of_some (s : FitState) (v : List ℚ) (h : s.gd = some v) :
    readGradientDescent s = (v, s) := by
  simp [readGradientDescent, h]

theorem readGradientDescent_fit (s : FitState) : (readGradientDescent s).2.fit = s.fit := by
  cases h : s.gd with
  | some v => simp [readGradientDescent, h]
  | none => simp [readGradientDescent, h, readBallpark_fit]

theorem readGradientDescent_cache (s : FitState) :
    (readGradientDescent s).2.gd = some (readGradientDescent s).1 := by
  cases h : s.gd <;> simp [readGradientDescent, h]

theorem readGradientDescent_count_ne (s : FitState) {Y : Field} (hY1 : Y ≠ Field.gdF)
    (hY2 : Y ≠ Field.ballparkF) (hY3 : Y ≠ Field.bruteForceF) (hY4 : Y ≠ Field.bppF)
    (hY5 : Y ≠ Field.slopeF) (hY6 : Y ≠ Field.interceptF) :
    (readGradientDescent s).2.count Y = s.count Y := by
  cases h : s.gd with
  | some v => simp [readGradientDescent, h]
  | none =>
      simp [readGradientDescent, h, bump, Function.update_noteq hY1,
        readBallpark_count_ne _ hY2 hY3 hY4 hY5 hY6]

theorem readGradientDescent_count_self (s : FitState) (h : s.gd = none) :
    (readGradientDescent s).2.count Field.gdF = s.count Field.gdF + 1 := by
  simp [readGradientDescent, h, bump,
    readBallpark_count_ne _ (by decide : Field.gdF ≠ Field.ballparkF)
      (by decide : Field.gdF ≠ Field.bruteForceF) (by decide : Field.gdF ≠ Field.bppF)
      (by decide : Field.gdF ≠ Field.slopeF) (by decide : Field.gdF ≠ Field.interceptF)]

theorem readGradientDescent_val (s : FitState) (hc : Consistent s) :
    (readGradientDescent s).1 = s.fit.gradient_descent := by
  cases h : s.gd with
  | some v =>
      rcases hc.2.2.2.2.2.1 with h' | h'
      · rw [h] at h'; cases h'
      · rw [h] at h'
        simp [readGradientDescent, h, Option.some.inj h']
  | none =>
      simp [readGradientDescent, h, readBallpark_fit, readBallpark_val s hc,
        PopulationFit.gradient_descent]

theorem readGradientDescent_consistent (s : FitState) (hc : Consistent s) :
    Consistent (readGradientDescent s).2 := by
  cases h : s.gd with
  | some v => simpa [readGradientDescent, h] using hc
  | none =>
      have hfit := readBallpark_fit s
      have hval := readBallpark_val s hc
      obtain ⟨g1, g2, g3, g4, g5, _, g7, g8, g9, g10, g11⟩ := readBallpark_consistent s hc
      simp only [readGradientDescent, h, Consistent]
      refine ⟨g1, g2, g3, g4, g5, ?_, g7, g8, g9, g10, g11⟩
      right
      simp [hfit, hval, PopulationFit.gradient_descent]

theorem readGradientDescent_idem (s : FitState) :
    readGradientDescent (readGradientDescent s).2 =
      ((readGradientDescent s).1, (readGradientDescent s).2) :=
  readGradientDescent_of_some _ _ (readGradientDescent_cache s)

theorem readGlobalOpt_of_some (s : FitState) (v : List ℚ) (h : s.go = some v) :
    readGlobalOpt s = (v, s) := by
  simp [readGlobalOpt, h]

theorem readGlobalOpt_fit (s : FitState) : (readGlobalOpt s).2.fit = s.fit := by
  cases h : s.go <;> simp [readGlobalOpt, h]

theorem readGlobalOpt_cache (s : FitState) :
    (readGlobalOpt s).2.go = some (readGlobalOpt s).1 := by
  cases h : s.go <;> simp [readGlobalOpt, h]

theorem readGlobalOpt_count_ne (s : FitState) {Y : Field} (hY : Y ≠ Field.goF) :
    (readGlobalOpt s).2.count Y = s.count Y := by
  cases h : s.go <;> simp [readGlobalOpt, h, bump, Function.update_noteq hY]

theorem readGlobalOpt_count_self (s : FitState) (h : s.go = none) :
    (readGlobalOpt s).2.count Field.goF = s.count Field.goF + 1 := by
  simp [readGlobalOpt, h, bump]

theorem readGlobalOpt_val (s : FitState) (hc : Consistent s) :
    (readGlobalOpt s).1 = s.fit.global_opt := by
  cases h : s.go with
  | some v =>
      rcases hc.2.2.2.2.2.2.1 with h' | h'
      · rw [h] at h'; cases h'
      · rw [h] at h'
        simp [readGlobalOpt, h, Option.some.inj h']
  | none => simp [readGlobalOpt, h, PopulationFit.global_opt]

theorem readGlobalOpt_consistent (s : FitState) (hc : Consistent s) :
    Consistent (readGlobalOpt s).2 := by
  cases h : s.go with
  | some v => simpa [readGlobalOpt, h] using hc
  | none =>
      obtain ⟨g1, g2, g3, g4, g5, g6, _, g8, g9, g10, g11⟩ := hc
      simp only [readGlobalOpt, h, Consistent]
      refine ⟨g1, g2, g3, g4, g5, g6, ?_, g8, g9, g10, g11⟩
      right
      simp [PopulationFit.global_opt]

theorem readGlobalOpt_idem (s : FitState) :
    readGlobalOpt (readGlobalOpt s).2 = ((readGlobalOpt s).1, (readGlobalOpt s).2) :=
  readGlobalOpt_of_some _ _ (readGlobalOpt_cache s)

theorem readEstimate_of_some (s : FitState) (v : List ℚ) (h : s.est = some v) :
    readEstimate s = (v, s) := by
  simp [readEstimate, h]

theorem readEstimate_fit (s : FitState) : (readEstimate s).2.fit = s.fit := by
  cases h : s.est with
  | some v => simp [readEstimate, h]
  | none =>
      by_cases hg : s.fit.fit_method = "global_opt"
      · simp [readEstimate, h, hg, readGlobalOpt_fit]
      · simp [readEstimate, h, hg, readGradientDescent_fit]

theorem readEstimate_cache (s : FitState) :
    (readEstimate s).2.est = some (readEstimate s).1 := by
  cases h : s.est with
  | some v => simp [readEstimate, h]
  | none =>
      by_cases hg : s.fit.fit_method = "global_opt" <;> simp [readEstimate, h, hg]

theorem readEstimate_count_ne (s : FitState) {Y : Field} (hY1 : Y ≠ Field.estimateF)
    (hY2 : Y ≠ Field.gdF) (hY3 : Y ≠ Field.goF) (hY4 : Y ≠ Field.ballparkF)
    (hY5 : Y ≠ Field.bruteForceF) (hY6 : Y ≠ Field.bppF) (hY7 : Y ≠ Field.slopeF)
    (hY8 : Y ≠ Field.interceptF) :
    (readEstimate s).2.count Y = s.count Y := by
  cases h : s.est with
  | some v => simp [readEstimate, h]
  | none =>
      by_cases hg : s.fit.fit_method = "global_opt"
      · simp [readEstimate, h, hg, bump, Function.update_noteq hY1,
          readGlobalOpt_count_ne _ hY3]
      · simp [readEstimate, h, hg, bump, Function.update_noteq hY1,
          readGradientDescent_count_ne _ hY2 hY4 hY5 hY6 hY7 hY8]

theorem readEstimate_count_self (s : FitState) (h : s.est = none) :
    (readEstimate s).2.count Field.estimateF = s.count Field.estimateF + 1 := by
  by_cases hg : s.fit.fit_method = "global_opt"
  · simp [readEstimate, h, hg, bump,
      readGlobalOpt_count_ne _ (by decide : Field.estimateF ≠ Field.goF)]
  · simp [readEstimate, h, hg, bump,
      readGradientDescent_count_ne _ (by decide : Field.estimateF ≠ Field.gdF)
        (by decide : Field.estimateF ≠ Field.ballparkF)
        (by decide : Field.estimateF ≠ Field.bruteForceF)
        (by decide : Field.estimateF ≠ Field.bppF)
        (by decide : Field.estimateF ≠ Field.slopeF)
        (by decide : Field.estimateF ≠ Field.interceptF)]

theorem readEstimate_val (s : FitState) (hc : Consistent s) :
    (readEstimate s).1 = s.fit.estimate := by
  cases h : s.est with
  | some v =>
      rcases hc.2.2.2.2.2.2.2.1 with h' | h'
      · rw [h] at h'; cases h'
      · rw [h] at h'
        simp [readEstimate, h, Option.some.inj h']
  | none =>
      by_cases hg : s.fit.fit_method = "global_opt"
      · simp [readEstimate, h, hg, readGlobalOpt_val s hc, PopulationFit.estimate]
      · simp [readEstimate, h, hg, readGradientDescent_val s hc, PopulationFit.estimate]

theorem readEstimate_consistent (s : FitState) (hc : Consistent s) :
    Consistent (readEstimate s).2 := by
  cases h : s.est with
  | some v => simpa [readEstimate, h] using hc
  | none =>
      by_cases hg : s.fit.fit_method = "global_opt"
      · have hfit := readGlobalOpt_fit s
        have hval := readGlobalOpt_val s hc
        obtain ⟨g1, g2, g3, g4, g5, g6, g7, _, g9, g10, g11⟩ := readGlobalOpt_consistent s hc
        simp only [readEstimate, h, hg, if_true, Consistent]
        refine ⟨g1, g2, g3, g4, g5, g6, g7, ?_, g9, g10, g11⟩
        right
        simp [hfit, hval, PopulationFit.estimate, hg]
      · have hfit := readGradientDescent_fit s
        have hval := readGradientDescent_val s hc
        obtain ⟨g1, g2, g3, g4, g5, g6, g7, _, g9, g10, g11⟩ :=
          readGradientDescent_consistent s hc
        simp only [readEstimate, h, hg, if_false, Consistent]
        refine ⟨g1, g2, g3, g4, g5, g6, g7, ?_, g9, g10, g11⟩
        right
        simp [hfit, hval, PopulationFit.estimate, hg]

theorem readEstimate_idem (s : FitState) :
    readEstimate (readEstimate s).2 = ((readEstimate s).1, (readEstimate s).2) :=
  readEstimate_of_some _ _ (readEstimate_cache s)

theorem readPrediction_of_some (s : FitState) (v : List ℚ) (h : s.prd = some v) :
    readPrediction s = (v, s) := by
  simp [readPrediction, h]

theorem readPrediction_fit (s : FitState) : (readPrediction s).2.fit = s.fit := by
  cases h : s.prd with
  | some v => simp [readPrediction, h]
  | none =>
      by_cases hg : s.fit.fit_method = "grid_only"
      · simp [readPrediction, h, hg, readBallpark_fit]
      · simp [readPrediction, h, hg, readEstimate_fit]

theorem readPrediction_cache (s : FitState) :
    (readPrediction s).2.prd = some (readPrediction s).1 := by
  cases h : s.prd with
  | some v => simp [readPrediction, h]
  | none =>
      by_cases hg : s.fit.fit_method = "grid_only" <;> simp [readPrediction, h, hg]

theorem readPrediction_count_ne (s : FitState) {Y : Field} (hY1 : Y ≠ Field.predictionF)
    (hY2 : Y ≠ Field.estimateF) (hY3 : Y ≠ Field.gdF) (hY4 : Y ≠ Field.goF)
    (hY5 : Y ≠ Field.ballparkF) (hY6 : Y ≠ Field.bruteForceF) (hY7 : Y ≠ Field.bppF)
    (hY8 : Y ≠ Field.slopeF) (hY9 : Y ≠ Field.interceptF) :
    (readPrediction s).2.count Y = s.count Y := by
  cases h : s.prd with
  | some v => simp [readPrediction, h]
  | none =>
      by_cases hg : s.fit.fit_method = "grid_only"
      · simp [readPrediction, h, hg, bump, Function.update_noteq hY1,
          readBallpark_count_ne _ hY5 hY6 hY7 hY8 hY9]
      · simp [readPrediction, h, hg, bump, Function.update_noteq hY1,
          readEstimate_count_ne _ hY2 hY3 hY4 hY5 hY6 hY7 hY8 hY9]

theorem readPrediction_count_self (s : FitState) (h : s.prd = none) :
    (readPrediction s).2.count Field.predictionF = s.count Field.predictionF + 1 := by
  by_cases hg : s.fit.fit_method = "grid_only"
  · simp [readPrediction, h, hg, bump,
      readBallpark_count_ne _ (by decide : Field.predictionF ≠ Field.ballparkF)
        (by decide : Field.predictionF ≠ Field.bruteForceF)
        (by decide : Field.predictionF ≠ Field.bppF)
        (by decide : Field.predictionF ≠ Field.slopeF)
        (by decide : Field.predictionF ≠ Field.interceptF)]
  · simp [readPrediction, h, hg, bump,
      readEstimate_count_ne _ (by decide : Field.predictionF ≠ Field.estimateF)
        (by decide : Field.predictionF ≠ Field.gdF)
        (by decide : Field.predictionF ≠ Field.goF)
        (by decide : Field.predictionF ≠ Field.ballparkF)
        (by decide : Field.predictionF ≠ Field.bruteForceF)
        (by decide : Field.predictionF ≠ Field.bppF)
        (by decide : Field.predictionF ≠ Field.slopeF)
        (by decide : Field.predictionF ≠ Field.interceptF)]

theorem readPrediction_val (s : FitState) (hc : Consistent s) :
    (readPrediction s).1 = s.fit.prediction := by
  cases h : s.prd with
  | some v =>
      rcases hc.2.2.2.2.2.2.2.2.1 with h' | h'
      · rw [h] at h'; cases h'
      · rw [h] at h'
        simp [readPrediction, h, Option.some.inj h']
  | none =>
      by_cases hg : s.fit.fit_method = "grid_only"
      · simp [readPrediction, h, hg, readBallpark_fit, readBallpark_val s hc,
          PopulationFit.prediction]
      · simp [readPrediction, h, hg, readEstimate_fit, readEstimate_val s hc,
          PopulationFit.prediction]

theorem readPrediction_consistent (s : FitState) (hc : Consistent s) :
    Consistent (readPrediction s).2 := by
  cases h : s.prd with
  | some v => simpa [readPrediction, h] using hc
  | none =>
      by_cases hg : s.fit.fit_method = "grid_only"
      · have hfit := readBallpark_fit s
        have hval := readBallpark_val s hc
        obtain ⟨g1, g2, g3, g4, g5, g6, g7, g8, _, g10, g11⟩ := readBallpark_consistent s hc
        simp only [readPrediction, h, hg, if_true, Consistent]
        refine ⟨g1, g2, g3, g4, g5, g6, g7, g8, ?_, g10, g11⟩
        right
        simp [hfit, hval, PopulationFit.prediction, hg]
      · have hfit := readEstimate_fit s
        have hval := readEstimate_val s hc
        obtain ⟨g1, g2, g3, g4, g5, g6, g7, g8, _, g10, g11⟩ := readEstimate_consistent s hc
        simp only [readPrediction, h, hg, if_false, Consistent]
        refine ⟨g1, g2, g3, g4, g5, g6, g7, g8, ?_, g10, g11⟩
        right
        simp [hfit, hval, PopulationFit.prediction, hg]

theorem readPrediction_idem (s : FitState) :
    readPrediction (readPrediction s).2 = ((readPrediction s).1, (readPrediction s).2) :=
  readPrediction_of_some _ _ (readPrediction_cache s)

theorem readRss_of_some (s : FitState) (v : ℚ) (h : s.rssv = some v) :
    readRss s = (v, s) := by
  simp [readRss, h]

theorem readRss_fit (s : FitState) : (readRss s).2.fit = s.fit := by
  cases h : s.rssv with
  | some v => simp [readRss, h]
  | none => simp [readRss, h, readPrediction_fit]

theorem readRss_cache (s : FitState) :
    (readRss s).2.rssv = some (readRss s).1 := by
  cases h : s.rssv <;> simp [readRss, h]

theorem readRss_count_ne (s : FitState) {Y : Field} (hY1 : Y ≠ Field.rssF)
    (hY2 : Y ≠ Field.predictionF) (hY3 : Y ≠ Field.estimateF) (hY4 : Y ≠ Field.gdF)
    (hY5 : Y ≠ Field.goF) (hY6 : Y ≠ Field.ballparkF) (hY7 : Y ≠ Field.bruteForceF)
    (hY8 : Y ≠ Field.bppF) (hY9 : Y ≠ Field.slopeF) (hY10 : Y ≠ Field.interceptF) :
    (readRss s).2.count Y = s.count Y := by
  cases h : s.rssv with
  | some v => simp [readRss, h]
  | none =>
      simp [readRss, h, bump, Function.update_noteq hY1,
        readPrediction_count_ne _ hY2 hY3 hY4 hY5 hY6 hY7 hY8 hY9 hY10]

theorem readRss_count_self (s : FitState) (h : s.rssv = none) :
    (readRss s).2.count Field.rssF = s.count Field.rssF + 1 := by
  simp [readRss, h, bump,
    readPrediction_count_ne _ (by decide : Field.rssF ≠ Field.predictionF)
      (by decide : Field.rssF ≠ Field.estimateF) (by decide : Field.rssF ≠ Field.gdF)
      (by decide : Field.rssF ≠ Field.goF) (by decide : Field.rssF ≠ Field.ballparkF)
      (by decide : Field.rssF ≠ Field.bruteForceF) (by decide : Field.rssF ≠ Field.bppF)
      (by decide : Field.rssF ≠ Field.slopeF) (by decide : Field.rssF ≠ Field.interceptF)]

theorem readRss_val (s : FitState) (hc : Consistent s) :
    (readRss s).1 = s.fit.rss := by
  cases h : s.rssv with
  | some v =>
      rcases hc.2.2.2.2.2.2.2.2.2.1 with h' | h'
      · rw [h] at h'; cases h'
      · rw [h] at h'
        simp [readRss, h, Option.some.inj h']
  | none =>
      simp [readRss, h, readPrediction_fit, readPrediction_val s hc, PopulationFit.rss]

theorem readRss_consistent (s : FitState) (hc : Consistent s) :
    Consistent (readRss s).2 := by
  cases h : s.rssv with
  | some v => simpa [readRss, h] using hc
  | none =>
      have hfit := readPrediction_fit s
      have hval := readPrediction_val s hc
      obtain ⟨g1, g2, g3, g4, g5, g6, g7, g8, g9, _, g11⟩ := readPrediction_consistent s hc
      simp only [readRss, h, Consistent]
      refine ⟨g1, g2, g3, g4, g5, g6, g7, g8, g9, ?_, g11⟩
      right
      simp [hfit, hval, PopulationFit.rss]

theorem readRss_idem (s : FitState) :
    readRss (readRss s).2 = ((readRss s).1, (readRss s).2) :=
  readRss_of_some _ _ (readRss_cache s)

theorem readRsquared_of_some (s : FitState) (v : ℚ) (h : s.rsqv = some v) :
    readRsquared s = (v, s) := by
  simp [readRsquared, h]

theorem readRsquared_fit (s : FitState) : (readRsquared s).2.fit = s.fit := by
  cases h : s.rsqv with
  | some v => simp [readRsquared, h]
  | none => simp [readRsquared, h, readRss_fit]

theorem readRsquared_cache (s : FitState) :
    (readRsquared s).2.rsqv = some (readRsquared s).1 := by
  cases h : s.rsqv <;> simp [readRsquared, h]

theorem readRsquared_count_self (s : FitState) (h : s.rsqv = none) :
    (readRsquared s).2.count Field.rsqF = s.count Field.rsqF + 1 := by
  simp [readRsquared, h, bump,
    readRss_count_ne _ (by decide : Field.rsqF ≠ Field.rssF)
      (by decide : Field.rsqF ≠ Field.predictionF)
      (by decide : Field.rsqF ≠ Field.estimateF) (by decide : Field.rsqF ≠ Field.gdF)
      (by decide : Field.rsqF ≠ Field.goF) (by decide : Field.rsqF ≠ Field.ballparkF)
      (by decide : Field.rsqF ≠ Field.bruteForceF) (by decide : Field.rsqF ≠ Field.bppF)
      (by decide : Field.rsqF ≠ Field.slopeF) (by decide : Field.rsqF ≠ Field.interceptF)]

theorem readRsquared_val (s : FitState) (hc : Consistent s) :
    (readRsquared s).1 = s.fit.rsquared := by
  cases h : s.rsqv with
  | some v =>
      rcases hc.2.2.2.2.2.2.2.2.2.2 with h' | h'
      · rw [h] at h'; cases h'
      · rw [h] at h'
        simp [readRsquared, h, Option.some.inj h']
  | none =>
      simp [readRsquared, h, readRss_fit, readRss_val s hc, PopulationFit.rsquared]

theorem readRsquared_consistent (s : FitState) (hc : Consistent s) :
    Consistent (readRsquared s).2 := by
  cases h : s.rsqv with
  | some v => simpa [readRsquared, h] using hc
  | none =>
      have hfit := readRss_fit s
      have hval := readRss_val s hc
      obtain ⟨g1, g2, g3, g4, g5, g6, g7, g8, g9, g10, _⟩ := readRss_consistent s hc
      simp only [readRsquared, h, Consistent]
      refine ⟨g1, g2, g3, g4, g5, g6, g7, g8, g9, g10, ?_⟩
      right
      simp [hfit, hval, PopulationFit.rsquared]

theorem readRsquared_idem (s : FitState) :
    readRsquared (readRsquared s).2 = ((readRsquared s).1, (readRsquared s).2) :=
  readRsquared_of_some _ _ (readRsquared_cache s)

theorem minimizeBy_spec {α : Type} (f : α → ℚ) (l : List α) (b : α × ℚ) :
    (minimizeBy f l b = b ∨
      ((minimizeBy f l b).1 ∈ l ∧ (minimizeBy f l b).2 = f (minimizeBy f l b).1)) ∧
    (minimizeBy f l b).2 ≤ b.2 ∧ ∀ c ∈ l, (minimizeBy f l b).2 ≤ f c := by
  induction l generalizing b with
  | nil => exact ⟨Or.inl rfl, le_refl _, by simp⟩
  | cons x xs ih =>
      have hstep : minimizeBy f (x :: xs) b =
          minimizeBy f xs (if f x < b.2 then (x, f x) else b) := by
        simp [minimizeBy]
      by_cases hx : f x < b.2
      · rw [hstep, if_pos hx]
        obtain ⟨h1, h2, h3⟩ := ih (x, f x)
        refine ⟨?_, le_trans h2 (le_of_lt hx), ?_⟩
        · rcases h1 with h1 | h1
          · exact Or.inr ⟨by rw [h1]; exact List.mem_cons_self _ _, by rw [h1]⟩
          · exact Or.inr ⟨List.mem_cons_of_mem _ h1.1, h1.2⟩
        · intro c hc
          rcases List.mem_cons.1 hc with rfl | hc
          · exact h2
          · exact h3 c hc
      · rw [hstep, if_neg hx]
        obtain ⟨h1, h2, h3⟩ := ih b
        refine ⟨?_, h2, ?_⟩
        · rcases h1 with h1 | h1
          · exact Or.inl h1
          · exact Or.inr ⟨List.mem_cons_of_mem _ h1.1, h1.2⟩
        · intro c hc
          rcases List.mem_cons.1 hc with rfl | hc
          · exact le_trans h2 (not_lt.1 hx)
          · exact h3 c hc

theorem brute_force_search_spec (data : List ℚ) (bp : List ℚ → List ℚ)
    (grids : List GridSpec) (Ns : ℕ) (h : listProd (sampleParams grids Ns) ≠ []) :
    (brute_force_search data bp grids Ns).1 ∈ listProd (sampleParams grids Ns) ∧
    ∀ c ∈ listProd (sampleParams grids Ns),
      error_function (bp (brute_force_search data bp grids Ns).1) data ≤
        error_function (bp c) data := by
  cases hcombos : listProd (sampleParams grids Ns) with
  | nil => exact absurd hcombos h
  | cons c0 rest =>
      have hbf : brute_force_search data bp grids Ns =
          minimizeBy (fun c' => error_function (bp c') data) rest
            (c0, error_function (bp c0) data) := by
        simp [brute_force_search, hcombos]
      obtain ⟨h1, h2, h3⟩ :=
        minimizeBy_spec (fun c' => error_function (bp c') data) rest
          (c0, error_function (bp c0) data)
      have hval : (brute_force_search data bp grids Ns).2 =
          error_function (bp (brute_force_search data bp grids Ns).1) data := by
        rw [hbf]
        rcases h1 with h1 | h1
        · rw [h1]
        · exact h1.2
      constructor
      · rw [hbf]
        rcases h1 with h1 | h1
        · rw [h1]; exact List.mem_cons_self _ _
        · exact List.mem_cons_of_mem _ h1.1
      · intro c hc
        rw [← hval, hbf]
        rcases List.mem_cons.1 hc with rfl | hc
        · exact h2
        · exact h3 c hc

theorem listProd_mem_length :
    ∀ (ls : List (List ℚ)) (c : List ℚ), c ∈ listProd ls → c.length = ls.length := by
  intro ls
  induction ls with
  | nil =>
      intro c hc
      simp [listProd] at hc
      simp [hc]
  | cons xs rest ih =>
      intro c hc
      simp only [listProd] at hc
      rcases List.mem_flatMap.1 hc with ⟨x, _, hcm⟩
      rcases List.mem_map.1 hcm with ⟨d, hd, rfl⟩
      simp [ih d hd]

theorem sampleParams_length (grids : List GridSpec) (Ns : ℕ) :
    (sampleParams grids Ns).length = grids.length := by
  simp [sampleParams]

theorem gradient_descent_search_length (data : List ℚ) (predfn : List ℚ → List ℚ)
    (x0 : List ℚ) (bounds : List (Option ℚ × Option ℚ)) :
    (gradient_descent_search data predfn x0 bounds).length = x0.length := by
  simp [gradient_descent_search]

theorem global_search_length (data : List ℚ) (predfn : List ℚ → List ℚ)
    (bounds : List (Option ℚ × Option ℚ)) :
    (global_search data predfn bounds).length = bounds.length := by
  simp [global_search]

theorem deOpt_length (l : List (Option ℚ)) : (deOpt l).length = l.length := by
  simp [deOpt]

theorem rsquaredOf_mem_unit (rss : ℚ) (data : List ℚ) :
    0 ≤ rsquaredOf rss data ∧ rsquaredOf rss data ≤ 1 := by
  rcases h : rsquaredRaw rss data with r | _ | _ | _
  · simp only [rsquaredOf, h]
    exact ⟨le_min (by norm_num) (le_max_right _ _), min_le_left _ _⟩
  · simp [rsquaredOf, h]
  · simp [rsquaredOf, h]
  · simp [rsquaredOf, h]

theorem rsquaredOf_of_ssTot_eq_zero (rss : ℚ) (data : List ℚ) (hrss : 0 ≤ rss)
    (h : ssTot data = 0) : rsquaredOf rss data = 0 := by
  rcases eq_or_lt_of_le hrss with h0 | h0
  · simp [rsquaredOf, rsquaredRaw, NpVal.div, NpVal.sub, h, ← h0]
  · simp [rsquaredOf, rsquaredRaw, NpVal.div, NpVal.sub, h, h0, h0.ne']

theorem mkFit_fields (cfg : FitConfig) (fit : PopulationFit) (h : mkFit cfg = Except.ok fit) :
    fit.model = { cfg.model with data := cfg.data } ∧
    fit.data = (match cfg.nuisance with
      | some f => f cfg.data
      | none => cfg.data) ∧
    fit.grids = cfg.grids ∧ fit.bounds = cfg.bounds ∧ fit.Ns = cfg.Ns ∧
    fit.fit_method = (if cfg.grid_only then "grid_only" else cfg.fit_method) ∧
    fit.outer_limit = cfg.outer_limit := by
  by_cases hv : cfg.fit_method = "2step" ∨ cfg.fit_method = "grid_only" ∨
      cfg.fit_method = "global_opt"
  · simp only [mkFit, if_pos hv, Except.ok.injEq] at h
    subst h
    exact ⟨rfl, rfl, rfl, rfl, rfl, rfl, rfl⟩
  · simp [mkFit, hv] at h

theorem gridOnly_no_refinement (fit : PopulationFit) (hm : fit.fit_method = "grid_only") :
    fit.prediction = fit.model.generate_prediction (deOpt fit.ballpark) ∧
    (readPrediction (initFitState fit)).1 =
      fit.model.generate_prediction (deOpt fit.ballpark) ∧
    (readPrediction (initFitState fit)).2.count Field.gdF = 0 ∧
    (readPrediction (initFitState fit)).2.count Field.goF = 0 := by
  have hpure : fit.prediction = fit.model.generate_prediction (deOpt fit.ballpark) := by
    simp [PopulationFit.prediction, hm]
  have hval : (readPrediction (initFitState fit)).1 = fit.prediction :=
    readPrediction_val _ (consistent_init fit)
  have hcount : ∀ Y : Field, Y ≠ Field.predictionF → Y ≠ Field.ballparkF →
      Y ≠ Field.bruteForceF → Y ≠ Field.bppF → Y ≠ Field.slopeF → Y ≠ Field.interceptF →
      (readPrediction (initFitState fit)).2.count Y = 0 := by
    intro Y h1 h2 h3 h4 h5 h6
    simp [readPrediction, initFitState, hm, bump, Function.update_noteq h1,
      readBallpark_count_ne _ h2 h3 h4 h5 h6]
  refine ⟨hpure, by rw [hval, hpure], ?_, ?_⟩
  · exact hcount Field.gdF (by decide) (by decide) (by decide) (by decide) (by decide)
      (by decide)
  · exact hcount Field.goF (by decide) (by decide) (by decide) (by decide) (by decide)
      (by decide)

/-- C6: constructing a fit fails exactly when the `fit_method` argument is
not one of `2step`, `grid_only`, `global_opt`; for every valid
`fit_method` (with `auto_fit` disabled) construction succeeds. -/
theorem c6_fit_method_validation (cfg : FitConfig) (ha : cfg.auto_fit = false) :
    ((∃ fit, mkFit cfg = Except.ok fit) ↔
      (cfg.fit_method = "2step" ∨ cfg.fit_method = "grid_only" ∨
        cfg.fit_method = "global_opt")) ∧
    ((∃ e, mkFit cfg = Except.error e) ↔
      ¬(cfg.fit_method = "2step" ∨ cfg.fit_method = "grid_only" ∨
        cfg.fit_method = "global_opt")) := by
  by_cases hv : cfg.fit_method = "2step" ∨ cfg.fit_method = "grid_only" ∨
      cfg.fit_method = "global_opt" <;>
    simp [mkFit, hv]

/-- Witness for C6 at the concrete valid configuration `cfgA`. -/
theorem c6_fit_method_validation_witness :
    ((∃ fit, mkFit cfgA = Except.ok fit) ↔
      (cfgA.fit_method = "2step" ∨ cfgA.fit_method = "grid_only" ∨
        cfgA.fit_method = "global_opt")) ∧
    ((∃ e, mkFit cfgA = Except.error e) ↔
      ¬(cfgA.fit_method = "2step" ∨ cfgA.fit_method = "grid_only" ∨
        cfgA.fit_method = "global_opt")) :=
  c6_fit_method_validation cfgA rfl

/-- C2: for every constructed fit whose `fit_method` is `grid_only`, the
prediction equals the model's prediction function at the ballpark vector,
and neither refinement optimizer (gradient descent or global search) is
ever invoked: their execution counters stay at zero after the prediction
is realized. -/
theorem c2_grid_only_prediction (cfg : FitConfig) (fit : PopulationFit)
    (h : mkFit cfg = Except.ok fit) (hm : fit.fit_method = "grid_only") :
    fit.prediction = fit.model.generate_prediction (deOpt fit.ballpark) ∧
    (readPrediction (initFitState fit)).1 =
      fit.model.generate_prediction (deOpt fit.ballpark) ∧
    (readPrediction (initFitState fit)).2.count Field.gdF = 0 ∧
    (readPrediction (initFitState fit)).2.count Field.goF = 0 :=
  gridOnly_no_refinement fit hm

/-- Witness for C2 at the concrete `grid_only` configuration `cfgGrid`. -/
theorem c2_grid_only_prediction_witness :
    (fitOf cfgGrid).prediction =
      (fitOf cfgGrid).model.generate_prediction (deOpt (fitOf cfgGrid).ballpark) ∧
    (readPrediction (initFitState (fitOf cfgGrid))).1 =
      (fitOf cfgGrid).model.generate_prediction (deOpt (fitOf cfgGrid).ballpark) ∧
    (readPrediction (initFitState (fitOf cfgGrid))).2.count Field.gdF = 0 ∧
    (readPrediction (initFitState (fitOf cfgGrid))).2.count Field.goF = 0 :=
  c2_grid_only_prediction cfgGrid (fitOf cfgGrid) rfl rfl

/-- C10: constructing a fit with `grid_only = True` and any valid
`fit_method` yields a fit whose `fit_method` is `grid_only`, which behaves
exactly as a `grid_only` fit: its prediction is the model's prediction at
the ballpark and no refinement optimizer ever runs. -/
theorem c10_grid_only_override (cfg : FitConfig) (fit : PopulationFit)
    (hgo : cfg.grid_only = true)
    (hv : cfg.fit_method = "2step" ∨ cfg.fit_method = "grid_only" ∨
      cfg.fit_method = "global_opt")
    (h : mkFit cfg = Except.ok fit) :
    fit.fit_method = "grid_only" ∧
    (fit.prediction = fit.model.generate_prediction (deOpt fit.ballpark) ∧
      (readPrediction (initFitState fit)).1 =
        fit.model.generate_prediction (deOpt fit.ballpark) ∧
      (readPrediction (initFitState fit)).2.count Field.gdF = 0 ∧
      (readPrediction (initFitState fit)).2.count Field.goF = 0) := by
  have hfm : fit.fit_method = "grid_only" := by
    obtain ⟨_, _, _, _, _, hfm', _⟩ := mkFit_fields cfg fit h
    simp [hfm', hgo]
  exact ⟨hfm, gridOnly_no_refinement fit hfm⟩

/-- Witness for C10 at `cfgOverride` (`grid_only=True`, `fit_method`
passed as `2step`). -/
theorem c10_grid_only_override_witness :
    (fitOf cfgOverride).fit_method = "grid_only" ∧
    ((fitOf cfgOverride).prediction =
      (fitOf cfgOverride).model.generate_prediction (deOpt (fitOf cfgOverride).ballpark) ∧
      (readPrediction (initFitState (fitOf cfgOverride))).1 =
        (fitOf cfgOverride).model.generate_prediction (deOpt (fitOf cfgOverride).ballpark) ∧
      (readPrediction (initFitState (fitOf cfgOverride))).2.count Field.gdF = 0 ∧
      (readPrediction (initFitState (fitOf cfgOverride))).2.count Field.goF = 0) :=
  c10_grid_only_override cfgOverride (fitOf cfgOverride) rfl (Or.inl rfl) rfl

/-- C7: when a nuisance function is configured, construction replaces the
fit's data with the nuisance output exactly once, and every stage of the
pipeline — the brute-force search, the slope/intercept regression of the
ballpark prediction against the data, both refinement optimizers, and the
rss/rsquared statistics — consumes that nuisance-processed data. -/
theorem c7_nuisance_once (cfg : FitConfig) (fit : PopulationFit) (f : List ℚ → List ℚ)
    (h : mkFit cfg = Except.ok fit) (hn : cfg.nuisance = some f) :
    fit.data = f cfg.data ∧
    fit.brute_force =
      brute_force_search (f cfg.data) fit.model.generate_ballpark_prediction fit.grids
        fit.Ns ∧
    fit.slope = (fit.model.regress fit.ballpark_prediction (f cfg.data)).1 ∧
    fit.intercept = (fit.model.regress fit.ballpark_prediction (f cfg.data)).2 ∧
    fit.gradient_descent =
      gradient_descent_search (f cfg.data) fit.model.generate_prediction
        (deOpt fit.ballpark) fit.bounds ∧
    fit.global_opt = global_search (f cfg.data) fit.model.generate_prediction fit.bounds ∧
    fit.rss = rssOf (f cfg.data) fit.prediction ∧
    fit.rsquared = rsquaredOf fit.rss (f cfg.data) := by
  obtain ⟨_, hdata0, _, _, _, _, _⟩ := mkFit_fields cfg fit h
  rw [hn] at hdata0
  have hdata : fit.data = f cfg.data := hdata0
  refine ⟨hdata, ?_, ?_, ?_, ?_, ?_, ?_, ?_⟩ <;>
    simp [PopulationFit.brute_force, PopulationFit.slope, PopulationFit.intercept,
      PopulationFit.gradient_descent, PopulationFit.global_opt, PopulationFit.rss,
      PopulationFit.rsquared, hdata]

/-- Witness for C7 at `cfgNuis` (data `[1,2,3]`, nuisance `x ↦ x + 1`). -/
theorem c7_nuisance_once_witness :
    (fitOf cfgNuis).data = cfgNuis.data.map (fun x => x + 1) ∧
    (fitOf cfgNuis).brute_force =
      brute_force_search (cfgNuis.data.map (fun x => x + 1))
        (fitOf cfgNuis).model.generate_ballpark_prediction (fitOf cfgNuis).grids
        (fitOf cfgNuis).Ns ∧
    (fitOf cfgNuis).slope =
      ((fitOf cfgNuis).model.regress (fitOf cfgNuis).ballpark_prediction
        (cfgNuis.data.map (fun x => x + 1))).1 ∧
    (fitOf cfgNuis).intercept =
      ((fitOf cfgNuis).model.regress (fitOf cfgNuis).ballpark_prediction
        (cfgNuis.data.map (fun x => x + 1))).2 ∧
    (fitOf cfgNuis).gradient_descent =
      gradient_descent_search (cfgNuis.data.map (fun x => x + 1))
        (fitOf cfgNuis).model.generate_prediction (deOpt (fitOf cfgNuis).ballpark)
        (fitOf cfgNuis).bounds ∧
    (fitOf cfgNuis).global_opt =
      global_search (cfgNuis.data.map (fun x => x + 1))
        (fitOf cfgNuis).model.generate_prediction (fitOf cfgNuis).bounds ∧
    (fitOf cfgNuis).rss =
      rssOf (cfgNuis.data.map (fun x => x + 1)) (fitOf cfgNuis).prediction ∧
    (fitOf cfgNuis).rsquared =
      rsquaredOf (fitOf cfgNuis).rss (cfgNuis.data.map (fun x => x + 1)) :=
  c7_nuisance_once cfgNuis (fitOf cfgNuis) (fun l => l.map (fun x => x + 1)) rfl rfl

/-- C4: every constructed fit carries exactly two nonlinear inequality
constraints, both without lower bounds; jointly they hold at a parameter
point (x, y, sigma) exactly when `sqrt(x² + y²) ≤ screen_dva` and
`sqrt(x² + y²) - outer_limit * sigma ≤ screen_dva / 2`. -/
theorem c4_constraints (cfg : FitConfig) (fit : PopulationFit)
    (h : mkFit cfg = Except.ok fit) :
    fit.constraints.length = 2 ∧
    (∀ c ∈ fit.constraints, c.lb = ⊥) ∧
    (∀ x y s : ℝ,
      (∀ c ∈ fit.constraints, satisfiesC c x y s) ↔
        (Real.sqrt (x ^ 2 + y ^ 2) ≤ (fit.model.screen_dva : ℝ) ∧
          Real.sqrt (x ^ 2 + y ^ 2) - (fit.outer_limit : ℝ) * s ≤
            (fit.model.screen_dva : ℝ) / 2)) := by
  refine ⟨rfl, ?_, ?_⟩
  · intro c hc
    simp only [PopulationFit.constraints, List.mem_cons, List.not_mem_nil, or_false] at hc
    rcases hc with rfl | rfl <;> rfl
  · intro x y s
    have hsplit : (∀ c ∈ fit.constraints, satisfiesC c x y s) ↔
        (satisfiesC
            { fn := fun x y _ => Real.sqrt (x ^ 2 + y ^ 2)
              lb := ⊥
              ub := ((fit.model.screen_dva : ℝ) : EReal) } x y s ∧
          satisfiesC
            { fn := fun x y s => Real.sqrt (x ^ 2 + y ^ 2) - (fit.outer_limit : ℝ) * s
              lb := ⊥
              ub := (((fit.model.screen_dva : ℝ) / 2 : ℝ) : EReal) } x y s) := by
      simp [PopulationFit.constraints]
    rw [hsplit]
    simp only [satisfiesC]
    constructor
    · rintro ⟨⟨_, hc1⟩, ⟨_, hc2⟩⟩
      exact ⟨by exact_mod_cast hc1, by exact_mod_cast hc2⟩
    · rintro ⟨hc1, hc2⟩
      exact ⟨⟨bot_le, by exact_mod_cast hc1⟩, ⟨bot_le, by exact_mod_cast hc2⟩⟩

/-- Witness for C4 at the concrete configuration `cfgA`. -/
theorem c4_constraints_witness :
    (fitOf cfgA).constraints.length = 2 ∧
    (∀ c ∈ (fitOf cfgA).constraints, c.lb = ⊥) ∧
    (∀ x y s : ℝ,
      (∀ c ∈ (fitOf cfgA).constraints, satisfiesC c x y s) ↔
        (Real.sqrt (x ^ 2 + y ^ 2) ≤ ((fitOf cfgA).model.screen_dva : ℝ) ∧
          Real.sqrt (x ^ 2 + y ^ 2) - ((fitOf cfgA).outer_limit : ℝ) * s ≤
            ((fitOf cfgA).model.screen_dva : ℝ) / 2)) :=
  c4_constraints cfgA (fitOf cfgA) rfl

theorem ballpark_default_length (fit : PopulationFit)
    (hfm : fit.fit_method ≠ "global_opt")
    (hcm : fit.model.cached_model = none)
    (hg : fit.grids.length = fit.model.nparams)
    (hne : listProd (sampleParams fit.grids fit.Ns) ≠ []) :
    fit.ballpark.length = fit.model.nparams + 2 := by
  obtain ⟨hmem, _⟩ :=
    brute_force_search_spec fit.data fit.model.generate_ballpark_prediction fit.grids
      fit.Ns hne
  have hlen : fit.brute_force.1.length = fit.model.nparams := by
    have hl := listProd_mem_length _ _ hmem
    rw [sampleParams_length] at hl
    rw [show fit.brute_force =
        brute_force_search fit.data fit.model.generate_ballpark_prediction fit.grids
          fit.Ns from rfl, hl, hg]
  have hbpk : fit.ballpark =
      fit.brute_force.1.map some ++ [some fit.slope, some fit.intercept] := by
    simp [PopulationFit.ballpark, hfm, hcm]
  rw [hbpk]
  simp [hlen]

/-- C1: in the default (non-cached, non-`global_opt`) path, the ballpark
is the minimum-error combination of the sampled grid (a member of the
combination list on which the modelled error function attains its
minimum), extended with the OLS slope and intercept of the winning
ballpark prediction regressed against the data; and for every fit method
— the default path as well as the `global_opt` placeholder — the ballpark
vector has exactly (free-parameter count) + 2 entries. -/
theorem c1_ballpark_default_path (cfg : FitConfig) (fit : PopulationFit)
    (h : mkFit cfg = Except.ok fit)
    (hfm : fit.fit_method ≠ "global_opt")
    (hcm : fit.model.cached_model = none)
    (hg : fit.grids.length = fit.model.nparams)
    (hne : listProd (sampleParams fit.grids fit.Ns) ≠ [])
    (hb : fit.model.bounded_amplitude = false)
    (fit2 : PopulationFit) (h2 : fit2.fit_method = "global_opt") :
    fit.ballpark = fit.brute_force.1.map some ++ [some fit.slope, some fit.intercept] ∧
    fit.brute_force.1 ∈ listProd (sampleParams fit.grids fit.Ns) ∧
    (∀ c ∈ listProd (sampleParams fit.grids fit.Ns),
      error_function (fit.model.generate_ballpark_prediction fit.brute_force.1)
          fit.data ≤
        error_function (fit.model.generate_ballpark_prediction c) fit.data) ∧
    fit.slope = (linregress fit.ballpark_prediction fit.data).1 ∧
    fit.intercept = (linregress fit.ballpark_prediction fit.data).2 ∧
    fit.ballpark.length = fit.model.nparams + 2 ∧
    fit2.ballpark.length = fit2.model.nparams + 2 := by
  obtain ⟨hmem, hmin⟩ :=
    brute_force_search_spec fit.data fit.model.generate_ballpark_prediction fit.grids
      fit.Ns hne
  refine ⟨?_, hmem, hmin, ?_, ?_, ballpark_default_length fit hfm hcm hg hne, ?_⟩
  · simp [PopulationFit.ballpark, hfm, hcm]
  · simp [PopulationFit.slope, PopulationModel.regress, hb]
  · simp [PopulationFit.intercept, PopulationModel.regress, hb]
  · simp [PopulationFit.ballpark, h2]

/-- Witness for C1 at `cfgA` (three one-point grid dimensions), with
`globalFit` exercising the placeholder branch. -/
theorem c1_ballpark_default_path_witness :
    (fitOf cfgA).ballpark =
      (fitOf cfgA).brute_force.1.map some ++
        [some (fitOf cfgA).slope, some (fitOf cfgA).intercept] ∧
    (fitOf cfgA).brute_force.1 ∈
      listProd (sampleParams (fitOf cfgA).grids (fitOf cfgA).Ns) ∧
    (∀ c ∈ listProd (sampleParams (fitOf cfgA).grids (fitOf cfgA).Ns),
      error_function
          ((fitOf cfgA).model.generate_ballpark_prediction (fitOf cfgA).brute_force.1)
          (fitOf cfgA).data ≤
        error_function ((fitOf cfgA).model.generate_ballpark_prediction c)
          (fitOf cfgA).data) ∧
    (fitOf cfgA).slope =
      (linregress (fitOf cfgA).ballpark_prediction (fitOf cfgA).data).1 ∧
    (fitOf cfgA).intercept =
      (linregress (fitOf cfgA).ballpark_prediction (fitOf cfgA).data).2 ∧
    (fitOf cfgA).ballpark.length = (fitOf cfgA).model.nparams + 2 ∧
    globalFit.ballpark.length = globalFit.model.nparams + 2 :=
  c1_ballpark_default_path cfgA (fitOf cfgA) rfl (by decide) rfl rfl (by decide) rfl
    globalFit rfl

/-- C5: for each memoized derived field of a freshly constructed fit
(brute force, ballpark, slope, intercept, estimate, prediction, rss,
rsquared): the first read computes exactly the field's defining value,
stores it on the instance, and runs the defining computation exactly once;
a second read returns the same value with the state (counters included)
unchanged, so the defining computation does not run again. -/
theorem c5_memoization (fit : PopulationFit) :
    ((readBruteForce (initFitState fit)).1 = fit.brute_force ∧
      (readBruteForce (initFitState fit)).2.bf =
        some (readBruteForce (initFitState fit)).1 ∧
      (readBruteForce (initFitState fit)).2.count Field.bruteForceF = 1 ∧
      readBruteForce (readBruteForce (initFitState fit)).2 =
        ((readBruteForce (initFitState fit)).1, (readBruteForce (initFitState fit)).2)) ∧
    ((readBallpark (initFitState fit)).1 = fit.ballpark ∧
      (readBallpark (initFitState fit)).2.bpk =
        some (readBallpark (initFitState fit)).1 ∧
      (readBallpark (initFitState fit)).2.count Field.ballparkF = 1 ∧
      readBallpark (readBallpark (initFitState fit)).2 =
        ((readBallpark (initFitState fit)).1, (readBallpark (initFitState fit)).2)) ∧
    ((readSlope (initFitState fit)).1 = fit.slope ∧
      (readSlope (initFitState fit)).2.slp = some (readSlope (initFitState fit)).1 ∧
      (readSlope (initFitState fit)).2.count Field.slopeF = 1 ∧
      readSlope (readSlope (initFitState fit)).2 =
        ((readSlope (initFitState fit)).1, (readSlope (initFitState fit)).2)) ∧
    ((readIntercept (initFitState fit)).1 = fit.intercept ∧
      (readIntercept (initFitState fit)).2.icp =
        some (readIntercept (initFitState fit)).1 ∧
      (readIntercept (initFitState fit)).2.count Field.interceptF = 1 ∧
      readIntercept (readIntercept (initFitState fit)).2 =
        ((readIntercept (initFitState fit)).1, (readIntercept (initFitState fit)).2)) ∧
    ((readEstimate (initFitState fit)).1 = fit.estimate ∧
      (readEstimate (initFitState fit)).2.est =
        some (readEstimate (initFitState fit)).1 ∧
      (readEstimate (initFitState fit)).2.count Field.estimateF = 1 ∧
      readEstimate (readEstimate (initFitState fit)).2 =
        ((readEstimate (initFitState fit)).1, (readEstimate (initFitState fit)).2)) ∧
    ((readPrediction (initFitState fit)).1 = fit.prediction ∧
      (readPrediction (initFitState fit)).2.prd =
        some (readPrediction (initFitState fit)).1 ∧
      (readPrediction (initFitState fit)).2.count Field.predictionF = 1 ∧
      readPrediction (readPrediction (initFitState fit)).2 =
        ((readPrediction (initFitState fit)).1, (readPrediction (initFitState fit)).2)) ∧
    ((readRss (initFitState fit)).1 = fit.rss ∧
      (readRss (initFitState fit)).2.rssv = some (readRss (initFitState fit)).1 ∧
      (readRss (initFitState fit)).2.count Field.rssF = 1 ∧
      readRss (readRss (initFitState fit)).2 =
        ((readRss (initFitState fit)).1, (readRss (initFitState fit)).2)) ∧
    ((readRsquared (initFitState fit)).1 = fit.rsquared ∧
      (readRsquared (initFitState fit)).2.rsqv =
        some (readRsquared (initFitState fit)).1 ∧
      (readRsquared (initFitState fit)).2.count Field.rsqF = 1 ∧
      readRsquared (readRsquared (initFitState fit)).2 =
        ((readRsquared (initFitState fit)).1, (readRsquared (initFitState fit)).2)) := by
  have hc := consistent_init fit
  exact ⟨⟨readBruteForce_val _ hc, readBruteForce_cache _,
      readBruteForce_count_self _ rfl, readBruteForce_idem _⟩,
    ⟨readBallpark_val _ hc, readBallpark_cache _,
      readBallpark_count_self _ rfl, readBallpark_idem _⟩,
    ⟨readSlope_val _ hc, readSlope_cache _, readSlope_count_self _ rfl, readSlope_idem _⟩,
    ⟨readIntercept_val _ hc, readIntercept_cache _,
      readIntercept_count_self _ rfl, readIntercept_idem _⟩,
    ⟨readEstimate_val _ hc, readEstimate_cache _,
      readEstimate_count_self _ rfl, readEstimate_idem _⟩,
    ⟨readPrediction_val _ hc, readPrediction_cache _,
      readPrediction_count_self _ rfl, readPrediction_idem _⟩,
    ⟨readRss_val _ hc, readRss_cache _, readRss_count_self _ rfl, readRss_idem _⟩,
    ⟨readRsquared_val _ hc, readRsquared_cache _,
      readRsquared_count_self _ rfl, readRsquared_idem _⟩⟩

/-- C8 amended: for every constructed fit in the default (non-cached)
path, the length of the refined estimate equals the model's
free-parameter count plus two (the amplitude and baseline slots carried
through from the ballpark) — under `2step` because the local optimizer is
seeded at the (free + 2)-entry ballpark, and under `global_opt` whenever
the bounds list has the intended free + 2 entries. -/
theorem c8_estimate_length_amended (cfg : FitConfig) (fit : PopulationFit)
    (h : mkFit cfg = Except.ok fit)
    (hcm : fit.model.cached_model = none)
    (hg : fit.grids.length = fit.model.nparams)
    (hne : listProd (sampleParams fit.grids fit.Ns) ≠ []) :
    (fit.fit_method = "2step" → fit.estimate.length = fit.model.nparams + 2) ∧
    (fit.fit_method = "global_opt" → fit.bounds.length = fit.model.nparams + 2 →
      fit.estimate.length = fit.model.nparams + 2) := by
  constructor
  · intro hm
    have hng : fit.fit_method ≠ "global_opt" := by rw [hm]; decide
    have hest : fit.estimate = fit.gradient_descent := by
      simp [PopulationFit.estimate, hng]
    rw [hest]
    have h1 : fit.gradient_descent.length = (deOpt fit.ballpark).length :=
      gradient_descent_search_length fit.data fit.model.generate_prediction
        (deOpt fit.ballpark) fit.bounds
    rw [h1, deOpt_length, ballpark_default_length fit hng hcm hg hne]
  · intro hm hblen
    have hest : fit.estimate = fit.global_opt := by simp [PopulationFit.estimate, hm]
    rw [hest]
    exact (global_search_length fit.data fit.model.generate_prediction
      fit.bounds).trans hblen

/-- Witness for the amended C8 at `cfgA` (`2step`, three free
parameters). -/
theorem c8_estimate_length_amended_witness :
    (fitOf cfgA).estimate.length = (fitOf cfgA).model.nparams + 2 :=
  (c8_estimate_length_amended cfgA (fitOf cfgA) rfl rfl rfl (by decide)).1 rfl

/-- C8 counterexample: at the concrete `2step` fit of `cfgA` the estimate
has 5 entries (three free parameters plus amplitude and baseline), not
the 3 the claim states. -/
theorem c8_counterexample :
    (fitOf cfgA).fit_method = "2step" ∧
    (fitOf cfgA).estimate.length ≠ (fitOf cfgA).model.nparams :=
  ⟨rfl, by decide⟩

/-- C9 amended: `cache_model` returns exactly the (prediction, parameter)
pairs — one per combination of the sampled grid, evaluated in the
shuffled order — whose prediction's numpy sum is not NaN: it discards
pairs containing NaN (or both `+inf` and `-inf`, which sum to NaN), but a
pair whose only non-finite entries are infinities of one sign is
retained. -/
theorem c9_cache_model_filter (bp : List ℚ → List NpVal) (grids : List GridSpec)
    (Ns : ℕ) (shuffle : List (List ℚ) → List (List ℚ))
    (hperm : List.Perm (shuffle (listProd (sampleParams grids Ns)))
      (listProd (sampleParams grids Ns)))
    (entry : List NpVal × List ℚ) :
    entry ∈ cache_model bp grids Ns shuffle ↔
      (entry.2 ∈ listProd (sampleParams grids Ns) ∧ entry.1 = bp entry.2 ∧
        (npSum entry.1).isnan = false) := by
  obtain ⟨p, c⟩ := entry
  simp only [cache_model]
  rw [List.mem_filter]
  constructor
  · rintro ⟨hmem, hfil⟩
    rcases List.mem_map.1 hmem with ⟨c', hc', heq⟩
    injection heq with h1 h2
    subst h2
    subst h1
    refine ⟨hperm.mem_iff.1 hc', rfl, ?_⟩
    simpa using hfil
  · rintro ⟨hmem, heq, hnan⟩
    subst heq
    refine ⟨List.mem_map.2 ⟨c, hperm.mem_iff.2 hmem, rfl⟩, ?_⟩
    simpa using hnan

/-- Witness for the amended C9: a single-combination grid with a finite
prediction, identity shuffle. -/
theorem c9_cache_model_filter_witness :
    (([NpVal.fin 1], [(0 : ℚ)]) ∈
        cache_model (fun _ => [NpVal.fin 1]) [GridSpec.pair 0 0] 1 id ↔
      ([(0 : ℚ)] ∈ listProd (sampleParams [GridSpec.pair 0 0] 1) ∧
        [NpVal.fin 1] = [NpVal.fin 1] ∧
        (npSum [NpVal.fin 1]).isnan = false)) :=
  c9_cache_model_filter (fun _ => [NpVal.fin 1]) [GridSpec.pair 0 0] 1 id
    (List.Perm.refl _) ([NpVal.fin 1], [0])

/-- C9 counterexample: a combination whose prediction is `[inf]`
(non-finite but not NaN) survives the filter, so not every pair with a
non-finite prediction entry is discarded. -/
theorem c9_counterexample :
    (([NpVal.inf], [(0 : ℚ)]) ∈
      cache_model (fun _ => [NpVal.inf]) [GridSpec.pair 0 0] 1 id) ∧
    NpVal.isfinite NpVal.inf = false :=
  ⟨by decide, rfl⟩

/-- C3: for every data vector and prediction, `rsquared` lies within
`[0, 1]`, and whenever the intermediate R² is non-finite (in particular for
zero-variance data, where the denominator `Σ (data - mean data)²` is zero)
the result is `0` rather than the propagated non-finite value. -/
theorem c3_rsquared_range (data pred : List ℚ) :
    0 ≤ rsquaredOf (rssOf data pred) data ∧
    rsquaredOf (rssOf data pred) data ≤ 1 ∧
    (ssTot data = 0 → rsquaredOf (rssOf data pred) data = 0) := by
  refine ⟨(rsquaredOf_mem_unit _ _).1, (rsquaredOf_mem_unit _ _).2, fun h => ?_⟩
  exact rsquaredOf_of_ssTot_eq_zero _ _ (rssOf_nonneg data pred) h

/-- Witness for C3 at the constant (zero-variance) data vector `[2, 2]`. -/
theorem c3_rsquared_range_witness :
    rsquaredOf (rssOf [2, 2] [1, 1]) [2, 2] = 0 :=
  (c3_rsquared_range [2, 2] [1, 1]).2.2 (by norm_num [ssTot, npMean])

end Popeye
